import Mathlib

/-!
Shallow embedding of `variantconvert/converters/vcf_from_annotsv.py`
(class `VcfFromAnnotsv`), the AnnotSV table → VCF conversion engine.

Modelling notes:
* A pandas `DataFrame` is modelled as a `Frame`: an ordered list of column
  labels and a list of rows, each row a positional list of string cells
  (after `_build_input_dataframe` every cell is a string and NaNs were
  replaced by ".").
* Python exceptions (`ValueError`, `KeyError`, the implicit `NameError` of
  an unbound variable, `TypeError`) are modelled by `Except VErr`.
* `pandas.DataFrame.groupby(col)` raises `KeyError` when `col` is not a
  column; on success it yields the sub-frames keyed by the distinct values
  of `col`, each preserving the original row order.  Both behaviours are
  mirrored explicitly.
* Python's `dict` preserves insertion order; an annotation dictionary is
  modelled as an association list (`List (String × String)`).
* `set(...)` iteration order in CPython is unspecified; it is modelled by
  `uniqueKeepFirst` (first-occurrence order), which realises one concrete
  admissible order.  No claim below depends on which order is chosen.
-/

/-- Errors corresponding to the Python exceptions the converter can raise. -/
inductive VErr where
  /-- `ValueError`: unexpected `config["GENERAL"]["mode"]` (only `full&split`). -/
  | unsupportedMode
  /-- `KeyError` from `df.groupby(col)` when `col` is not a column. -/
  | groupKeyError
  /-- `ValueError`: an `Annotation_mode` value other than `full`/`split`. -/
  | badAnnotationType
  /-- `ValueError`: more than one `full` row in a variant group. -/
  | multipleFull
  /-- `KeyError` from `dfs["full"].loc[df.index[0], ann]` when the group's
      first row is not the `full` row. -/
  | locKeyError
  /-- `NameError`: in `_build_input_annot_df` no column of `columns_to_drop`
      existed, so the local variable `df` was never bound. -/
  | nameError
  /-- `ValueError`: the configured SV_type column is empty or absent. -/
  | svTypeMissing
  /-- `ValueError` raised by `_get_sample_list` when a declared sample has no
      column of its own (the spec's `SchemaMismatchError`). -/
  | schemaMismatch
  /-- `KeyError`: a column subscript (`df[col]`, `df.loc[...]`) missed. -/
  | keyError
  /-- `IndexError`: `iloc[0]` on an empty frame (unreachable for real groups). -/
  | indexError
  /-- `TypeError`: an unhashable (helper-descriptor) config value used where a
      column label is required. -/
  | typeError
  /-- `ValueError`: helper functions for INFO fields are not implemented. -/
  | helperInfo
  deriving Repr, DecidableEq

/-- A pandas DataFrame after `_build_input_dataframe`: ordered column labels
    and rows of string cells (positional, parallel to `cols`). -/
structure Frame where
  cols : List String
  rows : List (List String)
  deriving Repr, DecidableEq

/-- Cell access `row[col]` given the frame's column labels.  On a well-formed
    frame (every row as long as `cols`, the column present) this is exactly
    pandas cell access; the default "." is never reached in those cases. -/
def cellD (cols : List String) (r : List String) (c : String) : String :=
  match cols.findIdx? (fun x => x = c) with
  | some i => (r.get? i).getD "."
  | none => "."

/-- `df.drop(columns)` (label-based): remove the listed columns and the
    corresponding cell of every row. -/
def dropColsFrame (f : Frame) (bad : List String) : Frame :=
  { cols := f.cols.filter (fun c => ¬ bad.contains c),
    rows := f.rows.map (fun r =>
      ((f.cols.zip r).filter (fun p => ¬ bad.contains p.1)).map Prod.snd) }

/-- Python's `sep.join(parts)`. -/
def joinSep (sep : String) : List String → String
  | [] => ""
  | [x] => x
  | x :: y :: xs => x ++ sep ++ joinSep sep (y :: xs)

/-- Fuel-bounded three-line core of `uniqueKeepFirst` (structural recursion so
    that concrete witnesses evaluate in the kernel; the fuel, initialised to
    the list length, never runs out). -/
def uniqueKeepFirstAux : Nat → List String → List String
  | _, [] => []
  | 0, _ :: _ => []
  | n + 1, x :: xs => x :: uniqueKeepFirstAux n (xs.filter (fun y => y ≠ x))

/-- First-occurrence deduplication: the key order of
    `pandas.groupby(..., sort=False)` and one admissible order for
    `list(set(...))`. -/
def uniqueKeepFirst (l : List String) : List String :=
  uniqueKeepFirstAux l.length l

/-- Python dict assignment `d[k] = v` for a key already present: update the
    entry in place, keeping its position. -/
def setAssoc (l : List (String × String)) (k v : String) : List (String × String) :=
  l.map (fun p => if p.1 = k then (k, v) else p)

/-- Replace every `;` by `,` in one cell
    (`df.replace(";", ",", regex=True)`, element-wise). -/
def replaceSemi (s : String) : String :=
  String.mk (s.data.map (fun c => if c = ';' then ',' else c))

/-- `df.replace(";", ",", regex=True)`: element-wise on all cells; column
    labels are untouched (pandas `replace` rewrites values only). -/
def replaceFrame (f : Frame) : Frame :=
  { cols := f.cols, rows := f.rows.map (fun r => r.map replaceSemi) }

/-- Digit test on the character code (kernel-friendly `Char.isDigit`). -/
def isDigitChar (c : Char) : Bool := 48 ≤ c.toNat && c.toNat ≤ 57

/-- True when the string looks like a (possibly signed) decimal numeral. -/
def isDecimalLike (s : String) : Bool :=
  let t := if s.data.head? = some '-' then s.data.tail else s.data
  (¬ t.isEmpty) && t.all (fun c => isDigitChar c || c = '.')
    && t.count '.' ≤ 1 && t.any isDigitChar

/-- Modelled from the spec: `remove_decimal_or_strip` lives in the `commons`
    module of this repository, which is not under `src/`.  The spec describes
    it as "a decimal-normalization step that strips spurious trailing
    zeros/decimal points from numeric-looking strings and otherwise passes
    the value through unchanged". -/
def remove_decimal_or_strip (s : String) : String :=
  if isDecimalLike s && s.data.contains '.' then
    let l := s.data.reverse.dropWhile (fun c => c = '0')
    let l := if l.head? = some '.' then l.tail else l
    String.mk l.reverse
  else s

/-- Split a character list at every occurrence of `sep`
    (Python `str.split(sep)` for a one-character separator). -/
def splitChar (sep : Char) : List Char → List (List Char)
  | [] => [[]]
  | c :: cs =>
    if c = sep then [] :: splitChar sep cs
    else
      match splitChar sep cs with
      | [] => [[c]]
      | w :: ws => (c :: w) :: ws

/-- Python `s.split(sep)` for a one-character separator. -/
def pySplit (sep : Char) (s : String) : List String :=
  (splitChar sep s.data).map String.mk

/-- A value of the `VCF_COLUMNS` config mapping: either a plain column name
    (a JSON string) or a helper-function descriptor (a JSON array naming the
    helper and its argument columns; `is_helper_func` — from the `commons`
    module, not under `src/` — is modelled from the spec as recognising
    exactly these descriptors). -/
inductive ColSpec where
  | str (s : String)
  | helper (fname : String) (argCols : List String)
  deriving Repr, DecidableEq

/-- Spec-modelled `is_helper_func`: true exactly on helper descriptors. -/
def ColSpec.isHelperFunc : ColSpec → Bool
  | .str _ => false
  | .helper _ _ => true

/-- The configuration slices the converter reads (`self.config`). -/
structure Config where
  /-- `config["GENERAL"]["mode"]`. -/
  mode : String
  /-- `config["GENERAL"]["origin"]`. -/
  origin : String
  /-- `config["GENERAL"]["default_genotype"]`. -/
  defaultGenotype : String
  /-- `config["VCF_COLUMNS"]["#CHROM"]`. -/
  chrom : ColSpec
  /-- `config["VCF_COLUMNS"]["POS"]`. -/
  pos : ColSpec
  /-- `config["VCF_COLUMNS"]["ID"]`. -/
  idc : ColSpec
  /-- `config["VCF_COLUMNS"]["REF"]`. -/
  refc : ColSpec
  /-- `config["VCF_COLUMNS"]["ALT"]`. -/
  altc : ColSpec
  /-- `config["VCF_COLUMNS"]["QUAL"]`. -/
  qual : ColSpec
  /-- `config["VCF_COLUMNS"]["FILTER"]`. -/
  filterc : ColSpec
  /-- `config["VCF_COLUMNS"]["SAMPLE"]` (a plain column name in practice). -/
  sample : String
  /-- `config["VCF_COLUMNS"]["FORMAT"]` (a plain column name in practice). -/
  format : String
  /-- `config["VCF_COLUMNS"]["INFO"]["INFO"]`: the raw INFO column. -/
  info : String
  /-- `config["VCF_COLUMNS"]["INFO"]["Annotation_mode"]`: the full/split
      discriminator column. -/
  annotationMode : String
  /-- `config["VCF_COLUMNS"]["INFO"]["SV_type"]`. -/
  svType : String
  /-- `config["VCF_COLUMNS"]["INFO"]["AnnotSV_ID"]`: the variant-group id. -/
  annotsvId : String
  /-- The raw values of the `config["VCF_COLUMNS"]["INFO"]` sub-dict, used
      only by the per-group helper-function scan in `convert`. -/
  infoColsSpecs : List ColSpec
  /-- `config["COLUMNS_DESCRIPTION"]["REF"]`: value → Description. -/
  descREF : List (String × String)
  /-- `config["COLUMNS_DESCRIPTION"]["ALT"]`: value → Description. -/
  descALT : List (String × String)
  /-- `config["COLUMNS_DESCRIPTION"]["INFO"]`: key → (Type, Description). -/
  descINFO : List (String × String × String)
  /-- `config["COLUMNS_DESCRIPTION"]["FORMAT"]`: key → (Type, Description). -/
  descFORMAT : List (String × String × String)
  /-- `config["GENOME"]["vcf_header"]`. -/
  genomeHeader : List String
  deriving Repr, DecidableEq

/-- Error-propagating map (the monadic `mapM` specialised to `Except`,
    written with structural recursion so concrete inputs evaluate in the
    kernel). -/
def mapMExcept (f : A → Except VErr B) : List A → Except VErr (List B)
  | [] => .ok []
  | x :: xs => do
    let y ← f x
    let ys ← mapMExcept f xs
    pure (y :: ys)

/-- The base-VCF-column strip at the head of `_merge_full_and_split`
    (lines 115-119): these literal labels are not kept in the INFO field. -/
def stripBaseVcfCols (df : Frame) : Frame :=
  dropColsFrame df ["ID", "REF", "ALT", "QUAL", "FILTER"]

/-- The full/split discriminator value of a row. -/
def rowTag (cfg : Config) (cols : List String) (r : List String) : String :=
  cellD cols r cfg.annotationMode

/-- The split-row merge loop of `_merge_full_and_split` (lines 151-170):
    for every column, either hard-set the discriminator to the merge mode or
    pipe-join the current (full-seeded) value with the decimal-normalised
    split values, in original row order. -/
def mergeSplitLoop (cfg : Config) (cols : List String)
    (splitRows : List (List String)) (annots : List (String × String)) :
    List (String × String) :=
  cols.foldl (fun acc ann =>
    if ann = cfg.annotationMode then setAssoc acc ann cfg.mode
    else
      let transform := splitRows.map (fun r => remove_decimal_or_strip (cellD cols r ann))
      let fullv := (List.lookup ann acc).getD "."
      setAssoc acc ann (joinSep "|" (fullv :: transform))) annots

/-- `_merge_full_and_split`: merge one variant group's annotation rows into a
    single key→value dictionary.  `df` is the group's sub-frame (original row
    order preserved by `groupby`). -/
def merge_full_and_split (cfg : Config) (df : Frame) :
    Except VErr (List (String × String)) :=
  if cfg.mode ≠ "full&split" then .error .unsupportedMode else
  -- do not keep 'base vcf col' in the info field
  let df := stripBaseVcfCols df
  -- df.groupby(Annotation_mode): KeyError when the column is absent
  if ¬ df.cols.contains cfg.annotationMode then .error .groupKeyError else
  let tag := rowTag cfg df.cols
  -- every group key must be 'full' or 'split'
  if df.rows.any (fun r => tag r ≠ "full" && tag r ≠ "split") then
    .error .badAnnotationType
  else
    let fullRows := df.rows.filter (fun r => tag r = "full")
    let splitRows := df.rows.filter (fun r => tag r = "split")
    if fullRows.isEmpty then
      if splitRows.isEmpty then
        -- log.warning(... 'Annotation_mode' column ...): empty INFO dict
        .ok []
      else
        -- seed every split column with "."
        let annots := df.cols.map (fun c => (c, "."))
        .ok (mergeSplitLoop cfg df.cols splitRows annots)
    else
      if fullRows.length > 1 then .error .multipleFull else
      -- dfs["full"].loc[df.index[0], ann]: succeeds only when the group's
      -- first row is the (unique) full row, else KeyError
      match df.rows.head? with
      | none => .error .locKeyError
      | some r0 =>
        if tag r0 = "full" then
          let annots := df.cols.map (fun c =>
            (c, remove_decimal_or_strip (cellD df.cols r0 c)))
          if splitRows.isEmpty then .ok annots
          else .ok (mergeSplitLoop cfg df.cols splitRows annots)
        else .error .locKeyError

/-- `_get_sample_list`: flatten the (comma-joined) samples column, deduplicate,
    and — only when the FORMAT role is configured as the literal string
    `"FORMAT"` — require every sample to have its own column. -/
def get_sample_list (cfg : Config) (f : Frame) : Except VErr (List String) :=
  if ¬ f.cols.contains cfg.sample then .error .keyError else
  let cells := f.rows.map (fun r => cellD f.cols r cfg.sample)
  let sl := cells.foldr (fun cell acc =>
    (if cell.data.contains ',' then pySplit ',' cell else [cell]) ++ acc) []
  let sl := uniqueKeepFirst sl
  if cfg.format = "FORMAT" then
    if ¬ sl.all (fun s => f.cols.contains s) then .error .schemaMismatch
    else .ok sl
  else .ok sl

/-- `df[col] = v`: overwrite an existing column with a constant, or append a
    new one (pandas column assignment). -/
def setCol (f : Frame) (c v : String) : Frame :=
  match f.cols.findIdx? (fun x => x = c) with
  | some i => { cols := f.cols, rows := f.rows.map (fun r => r.set i v) }
  | none => { cols := f.cols ++ [c], rows := f.rows.map (fun r => r ++ [v]) }

/-- The role/value pairs of `config["VCF_COLUMNS"]` that `_get_main_vcf_cols`
    iterates, in source order. -/
def mainRoleSpecs (cfg : Config) : List (String × ColSpec) :=
  [("#CHROM", cfg.chrom), ("POS", cfg.pos), ("ID", cfg.idc), ("REF", cfg.refc),
   ("ALT", cfg.altc), ("QUAL", cfg.qual), ("FILTER", cfg.filterc)]

/-- `_get_main_vcf_cols`: for each of the seven main VCF roles, either use the
    mapped column name, or (helper descriptor / empty mapping) create a
    placeholder column named after the role, filled with ".".  Returns the
    main-column name list and the possibly augmented frame. -/
def get_main_vcf_cols (cfg : Config) (f : Frame) : List String × Frame :=
  (mainRoleSpecs cfg).foldl (fun (acc : List String × Frame) rs =>
    match rs.2 with
    | .helper _ _ => (acc.1 ++ [rs.1], setCol acc.2 rs.1 ".")
    | .str s =>
      if s = "" then (acc.1 ++ [rs.1], setCol acc.2 rs.1 ".")
      else (acc.1 ++ [s], acc.2)) ([], f)

/-- `_build_input_annot_df`.  The Python drop loop rebinds
    `df = self.input_df.drop([col], axis=1)` from the ORIGINAL frame on every
    successful iteration (`KeyError` keeps the previous binding), so only the
    last existing column of `columns_to_drop` is actually removed, and `df` is
    unbound (`NameError`) when none of them exists.  The fold below mirrors
    that faithfully. -/
def build_input_annot_df (cfg : Config) (sampleList mainVcfCols : List String)
    (input_df : Frame) : Except VErr Frame :=
  let columnsToDrop := sampleList ++ mainVcfCols ++ [cfg.sample, cfg.format, cfg.info]
  let dfOpt := columnsToDrop.foldl (fun acc col =>
    if input_df.cols.contains col then some (dropColsFrame input_df [col]) else acc)
    (none : Option Frame)
  match dfOpt with
  | none => .error .nameError
  | some df =>
    let df := replaceFrame df
    if cfg.svType = "" || ¬ df.cols.contains cfg.svType then .error .svTypeMissing
    else .ok df

/-- `_build_info_dic`: group the annotation frame by `AnnotSV_ID` and merge
    each group.  (`groupby` raises `KeyError` when the id column is absent;
    its default key-sorting only affects dict ordering, never lookups, so the
    dictionary is built in first-occurrence key order here.) -/
def build_info_dic (cfg : Config) (sampleList mainVcfCols : List String)
    (input_df : Frame) : Except VErr (List (String × List (String × String))) := do
  let df ← build_input_annot_df cfg sampleList mainVcfCols input_df
  if ¬ df.cols.contains cfg.annotsvId then throw .groupKeyError
  let ids := uniqueKeepFirst (df.rows.map (fun r => cellD df.cols r cfg.annotsvId))
  mapMExcept (fun vid => do
    let sub : Frame :=
      { cols := df.cols, rows := df.rows.filter (fun r => cellD df.cols r cfg.annotsvId = vid) }
    let merged ← merge_full_and_split cfg sub
    pure (vid, merged)) ids

/-- Numeric value of a digit run. -/
def digitsVal (l : List Char) : Nat :=
  l.foldl (fun a c => a * 10 + (c.toNat - 48)) 0

/-- Modelled from the spec: `index_natsorted` comes from the third-party
    `natsort` library.  The spec defines the order: "alphanumeric chromosome
    tokens sorted so that numeric suffixes compare numerically".  Each string
    is keyed by its runs, a digit run contributing `[0, value]` and a text
    character `[1, code]`, so that keys compare by lexicographic `Nat` order
    with digit runs compared numerically and numbers before letters. -/
def natKeyAux : Nat → List Char → List Nat
  | _, [] => []
  | 0, _ :: _ => []
  | n + 1, c :: cs =>
    if isDigitChar c then
      0 :: digitsVal ((c :: cs).takeWhile isDigitChar)
        :: natKeyAux n ((c :: cs).dropWhile isDigitChar)
    else
      1 :: c.toNat :: natKeyAux n cs

/-- Natural-sort key of a string (fuel-bounded structural recursion; the
    fuel, initialised to the length, never runs out). -/
def natKey (s : String) : List Nat := natKeyAux s.data.length s.data

/-- Strict lexicographic order on `Nat` keys. -/
def listNatLt : List Nat → List Nat → Bool
  | [], [] => false
  | [], _ :: _ => true
  | _ :: _, [] => false
  | a :: as, b :: bs => if a < b then true else if b < a then false else listNatLt as bs

/-- Natural-order strict comparison of two strings. -/
def natLt (a b : String) : Bool := listNatLt (natKey a) (natKey b)

/-- Stable insertion: place `x` before the first element strictly greater
    (equal keys keep their existing relative order). -/
def insertStable (lt : α → α → Bool) (x : α) : List α → List α
  | [] => [x]
  | y :: ys => if lt x y then x :: y :: ys else y :: insertStable lt x ys

/-- A stable sort (insertion sort, processing elements in order): the
    extensional behaviour of `natsort.index_natsorted` followed by `iloc`. -/
def stableSortBy (lt : α → α → Bool) (l : List α) : List α :=
  l.foldl (fun acc x => insertStable lt x acc) []

/-- The row order used for emission: `input_df.iloc[index_natsorted(chrom)]`
    (stable natural sort of the rows by their chromosome cell). -/
def natsortRows (chromCol : String) (cols : List String)
    (rows : List (List String)) : List (List String) :=
  stableSortBy (fun r s => natLt (cellD cols r chromCol) (cellD cols s chromCol)) rows

/-- The variant-group ids in emission order:
    `groupby(id_col, sort=False)` over the natural-sorted frame iterates the
    ids in first-occurrence order. -/
def emissionIds (chromCol idCol : String) (cols : List String)
    (rows : List (List String)) : List String :=
  uniqueKeepFirst ((natsortRows chromCol cols rows).map (fun r => cellD cols r idCol))

/-- The INFO field of one data line:
    `";".join([k + "=" + v for k, v in info_dic[variant_id].items()])`. -/
def infoStringOf (annots : List (String × String)) : String :=
  joinSep ";" (annots.map (fun kv => kv.1 ++ "=" ++ kv.2))

/-- The `config["VCF_COLUMNS"]` items iterated by the per-group helper loop in
    `convert`, in source dict order (the INFO sub-dict is handled by key). -/
def vcfColumnsItems (cfg : Config) : List (String × ColSpec) :=
  mainRoleSpecs cfg ++
    [("INFO", .str ""), ("FORMAT", .str cfg.format), ("SAMPLE", .str cfg.sample)]

/-- The per-group column-derivation loop of `convert` (lines 346-359):
    reject helper functions for INFO fields, default an unmapped FILTER to
    "PASS", and fill helper-derived columns from the group's first row.
    `helperReg` models the external `HelperFunctions` registry (not under
    `src/`; per the spec an opaque name → callable lookup). -/
def applyHelperLoop (cfg : Config) (helperReg : String → List String → String)
    (g : Frame) : Except VErr Frame :=
  (vcfColumnsItems cfg).foldlM (fun g kv =>
    if kv.1 = "INFO" then
      if cfg.infoColsSpecs.any ColSpec.isHelperFunc then throw .helperInfo else pure g
    else if kv.1 = "FILTER" && kv.2 = .str "" then
      pure (setCol g "FILTER" "PASS")
    else
      match kv.2 with
      | .helper fn argCols =>
        match g.rows.head? with
        | none => throw .indexError
        | some r0 => pure (setCol g kv.1 (helperReg fn (argCols.map (cellD g.cols r0))))
      | .str _ => pure g) g

/-- Emission of one data line for the group `vid` (lines 343-374 of
    `convert`): main columns and sample columns from the group's first row,
    the INFO string from the merged annotations. -/
def emitGroupLine (cfg : Config) (helperReg : String → List String → String)
    (sampleList mainVcfCols : List String) (cols : List String)
    (sortedRows : List (List String))
    (infoDic : List (String × List (String × String))) (vid : String) :
    Except VErr String := do
  let g0 : Frame :=
    { cols := cols, rows := sortedRows.filter (fun r => cellD cols r cfg.annotsvId = vid) }
  let g ← applyHelperLoop cfg helperReg g0
  if ¬ mainVcfCols.all (fun c => g.cols.contains c) then throw .keyError
  match g.rows.head? with
  | none => throw .indexError
  | some r0 =>
    let mainCols := joinSep "\t" (mainVcfCols.map (cellD g.cols r0))
    match List.lookup vid infoDic with
    | none => throw .keyError
    | some annots =>
      let sampleCols ← do
        if cfg.format ≠ "" then
          if ¬ (cfg.format :: sampleList).all (fun c => g.cols.contains c) then
            throw VErr.keyError
          else
            pure (joinSep "\t" ((cfg.format :: sampleList).map (cellD g.cols r0)))
        else
          pure ("GT\t" ++ cfg.defaultGenotype)
      pure (mainCols ++ "\t" ++ infoStringOf annots ++ "\t" ++ sampleCols)

/-- An INFO (or FORMAT) typed header meta-line exactly as `_create_vcf_header`
    builds it: Config-described keys get their Type/Description, unknown keys
    fall back to `Type=String` and the generic imported-from description.
    `Number` is always `.`. -/
def typedHeaderLine (section_ origin : String) (desc : List (String × String × String))
    (key : String) : String :=
  match List.lookup key desc with
  | some td =>
    "##" ++ section_ ++ "=<ID=" ++ key ++ ",Number=.,Type=" ++ td.1
      ++ ",Description=\"" ++ td.2 ++ "\">"
  | none =>
    "##" ++ section_ ++ "=<ID=" ++ key
      ++ ",Number=.,Type=String,Description=\"Imported from " ++ origin ++ "\">"

/-- A REF/ALT description header line as `_create_vcf_header` builds it. -/
def describedHeaderLine (section_ origin : String) (desc : List (String × String))
    (key : String) : String :=
  match List.lookup key desc with
  | some d => "##" ++ section_ ++ "=<ID=" ++ key ++ ",Description=\"" ++ d ++ "\">"
  | none =>
    "##" ++ section_ ++ "=<ID=" ++ key ++ ",Description=\"Imported from "
      ++ origin ++ "\">"

/-- The column values of a (present) column, as a deduplicated list —
    `set(input_df[col].to_list())` with first-occurrence order standing in for
    the unspecified set order. -/
def distinctColValues (f : Frame) (c : String) : List String :=
  uniqueKeepFirst (f.rows.map (fun r => cellD f.cols r c))

/-- `_create_vcf_header(input_path, config, sample_list, input_df, info_keys)`
    (static method, lines 194-288).  `fileDate` and `absInputPath` stand for
    `time.strftime` and `os.path.abspath`, which read the environment.
    A helper-descriptor (list-valued) FILTER/REF/ALT mapping would be
    unhashable as a column subscript, hence `TypeError`; a missing REF, ALT or
    FORMAT column raises `KeyError`. -/
def create_vcf_header (fileDate absInputPath : String) (cfg : Config)
    (sample_list : List String) (input_df : Frame) (info_keys : List String) :
    Except VErr (List String) := do
  let preamble := ["##fileformat=VCFv4.2", "##fileDate=" ++ fileDate,
    "##source=" ++ cfg.origin, "##InputFile=" ++ absInputPath]
  let filterLines ← do
    match cfg.filterc with
    | .helper _ _ => throw VErr.typeError
    | .str fcol =>
      if input_df.cols.contains fcol then
        pure ((distinctColValues input_df fcol).map
          (fun fv => "##FILTER=<ID=" ++ fv ++ ",Description=\".\">"))
      else
        pure ["##FILTER=<ID=PASS,Description=\"Passed filter\">"]
  let refLines ← do
    match cfg.refc with
    | .helper _ _ => throw VErr.typeError
    | .str rcol =>
      if ¬ input_df.cols.contains rcol then throw VErr.keyError
      else pure ((distinctColValues input_df rcol).map
        (describedHeaderLine "REF" cfg.origin cfg.descREF))
  let altLines ← do
    match cfg.altc with
    | .helper _ _ => throw VErr.typeError
    | .str acol =>
      if ¬ input_df.cols.contains acol then throw VErr.keyError
      else pure ((distinctColValues input_df acol).map
        (describedHeaderLine "ALT" cfg.origin cfg.descALT))
  let infoLines := info_keys.map (typedHeaderLine "INFO" cfg.origin cfg.descINFO)
  let formatLines ← do
    if ¬ input_df.cols.contains cfg.format then throw VErr.keyError
    else
      let subfields := uniqueKeepFirst
        ((input_df.rows.map (fun r => cellD input_df.cols r cfg.format)).foldr
          (fun cell acc => pySplit ':' cell ++ acc) [])
      pure (subfields.map (typedHeaderLine "FORMAT" cfg.origin cfg.descFORMAT))
  let titleLine := joinSep "\t"
    (["#CHROM", "POS", "ID", "REF", "ALT", "QUAL", "FILTER", "INFO", "FORMAT"]
      ++ sample_list)
  pure (preamble ++ filterLines ++ refLines ++ altLines ++ infoLines ++ formatLines
    ++ cfg.genomeHeader ++ [titleLine])

/-- `convert(tsv, output_path)` from the point where the loaded frame exists
    (`_build_input_dataframe` is file I/O plus a position sort and is taken as
    given).  Returns all lines of the output file, or the first raised error
    (in which case the file has no content for errors raised before the
    `open`, which is the case for every error of `_build_info_dic`).

    Modelled from the spec: the header is written through the
    `create_vcf_header` helper of the `commons` module, which is not under
    `src/`; per spec section 4.4 the header synthesizer is "given the full
    table, the sample list, and GlobalInfoKeySet" and is the synthesis that
    the in-class `_create_vcf_header` implements, so the call is modelled as
    invoking that synthesis. -/
def convert (cfg : Config) (helperReg : String → List String → String)
    (fileDate absInputPath : String) (input_df : Frame) :
    Except VErr (List String) := do
  let sampleList ← get_sample_list cfg input_df
  let (mainVcfCols, input_df) := get_main_vcf_cols cfg input_df
  let infoDic ← build_info_dic cfg sampleList mainVcfCols input_df
  let infoKeys := uniqueKeepFirst
    (infoDic.foldr (fun g acc => g.2.map Prod.fst ++ acc) [])
  let header ← create_vcf_header fileDate absInputPath cfg sampleList input_df infoKeys
  match cfg.chrom with
  | .helper _ _ => throw VErr.typeError
  | .str chromCol =>
    if ¬ input_df.cols.contains chromCol then throw VErr.keyError else
    if ¬ input_df.cols.contains cfg.annotsvId then throw VErr.groupKeyError else
    let sortedRows := natsortRows chromCol input_df.cols input_df.rows
    let ids := emissionIds chromCol cfg.annotsvId input_df.cols input_df.rows
    let dataLines ← mapMExcept
      (emitGroupLine cfg helperReg sampleList mainVcfCols input_df.cols sortedRows infoDic) ids
    pure (header ++ dataLines)

/-! ## Association-list and merge-loop lemmas -/

theorem lookup_cons_fst (c : String) (p : String × String) (ps : List (String × String))
    (h : c = p.1) : List.lookup c (p :: ps) = some p.2 := by
  cases p with
  | mk k b =>
    have hb : (c == k) = true := by simp [h]
    simp [List.lookup_cons, hb]

theorem lookup_cons_ne (c : String) (p : String × String) (ps : List (String × String))
    (h : c ≠ p.1) : List.lookup c (p :: ps) = List.lookup c ps := by
  cases p with
  | mk k b =>
    have hb : (c == k) = false := by simp; exact h
    simp [List.lookup_cons, hb]

theorem lookup_map_keyfun (g : String → String) (cols : List String) (c : String)
    (hc : c ∈ cols) :
    List.lookup c (cols.map (fun k => (k, g k))) = some (g c) := by
  induction cols with
  | nil => cases hc
  | cons k ks ih =>
    simp only [List.map_cons]
    by_cases hck : c = k
    · rw [lookup_cons_fst c _ _ hck]
      simp [hck]
    · rw [lookup_cons_ne c _ _ hck]
      exact ih (by
        rcases List.mem_cons.mp hc with h | h
        · exact absurd h hck
        · exact h)

theorem setAssoc_cons (p : String × String) (ps : List (String × String)) (k v : String) :
    setAssoc (p :: ps) k v
      = (if p.1 = k then (k, v) else p) :: setAssoc ps k v := rfl

theorem lookup_setAssoc_ne (l : List (String × String)) (k v c : String) (h : c ≠ k) :
    List.lookup c (setAssoc l k v) = List.lookup c l := by
  induction l with
  | nil => rfl
  | cons p ps ih =>
    rw [setAssoc_cons]
    by_cases hk : p.1 = k
    · rw [if_pos hk]
      rw [lookup_cons_ne c (k, v) _ h, lookup_cons_ne c p _ (by rw [hk]; exact h)]
      exact ih
    · rw [if_neg hk]
      by_cases hcp : c = p.1
      · rw [lookup_cons_fst c p _ hcp, lookup_cons_fst c p _ hcp]
      · rw [lookup_cons_ne c p _ hcp, lookup_cons_ne c p _ hcp]
        exact ih

theorem lookup_setAssoc_self (l : List (String × String)) (k v w : String)
    (h : List.lookup k l = some w) :
    List.lookup k (setAssoc l k v) = some v := by
  induction l with
  | nil => simp [List.lookup] at h
  | cons p ps ih =>
    rw [setAssoc_cons]
    by_cases hk : p.1 = k
    · rw [if_pos hk]
      exact lookup_cons_fst k (k, v) _ rfl
    · rw [if_neg hk]
      have hkp : k ≠ p.1 := fun he => hk he.symm
      rw [lookup_cons_ne k p _ hkp]
      rw [lookup_cons_ne k p _ hkp] at h
      exact ih h

/-- The per-column update applied by `mergeSplitLoop`. -/
def mergeSplitStep (cfg : Config) (cols : List String)
    (splitRows : List (List String)) (acc : List (String × String)) (ann : String) :
    List (String × String) :=
  if ann = cfg.annotationMode then setAssoc acc ann cfg.mode
  else
    let transform := splitRows.map (fun r => remove_decimal_or_strip (cellD cols r ann))
    let fullv := (List.lookup ann acc).getD "."
    setAssoc acc ann (joinSep "|" (fullv :: transform))

theorem mergeSplitLoop_eq_foldl (cfg : Config) (cols keys : List String)
    (splitRows : List (List String)) (annots : List (String × String)) :
    keys.foldl (mergeSplitStep cfg cols splitRows) annots
      = keys.foldl (fun acc ann =>
          if ann = cfg.annotationMode then setAssoc acc ann cfg.mode
          else
            let transform := splitRows.map (fun r => remove_decimal_or_strip (cellD cols r ann))
            let fullv := (List.lookup ann acc).getD "."
            setAssoc acc ann (joinSep "|" (fullv :: transform))) annots := rfl

theorem foldl_mergeSplitStep_notmem (cfg : Config) (cols keys : List String)
    (splitRows : List (List String)) (acc : List (String × String)) (c : String)
    (hc : c ∉ keys) :
    List.lookup c (keys.foldl (mergeSplitStep cfg cols splitRows) acc)
      = List.lookup c acc := by
  induction keys generalizing acc with
  | nil => rfl
  | cons k ks ih =>
    have hck : c ≠ k := fun h => hc (h ▸ List.mem_cons_self k ks)
    have hcks : c ∉ ks := fun h => hc (List.mem_cons_of_mem k h)
    simp only [List.foldl_cons]
    rw [ih _ hcks]
    unfold mergeSplitStep
    by_cases hk : k = cfg.annotationMode
    · rw [if_pos hk]; exact lookup_setAssoc_ne _ _ _ _ hck
    · rw [if_neg hk]; exact lookup_setAssoc_ne _ _ _ _ hck

theorem foldl_mergeSplitStep_mem (cfg : Config) (cols keys : List String)
    (splitRows : List (List String)) (acc : List (String × String)) (c : String)
    (init : String) (hnd : keys.Nodup) (hc : c ∈ keys)
    (hinit : List.lookup c acc = some init) :
    List.lookup c (keys.foldl (mergeSplitStep cfg cols splitRows) acc)
      = some (if c = cfg.annotationMode then cfg.mode
          else joinSep "|"
            (init :: splitRows.map (fun r => remove_decimal_or_strip (cellD cols r c)))) := by
  induction keys generalizing acc with
  | nil => cases hc
  | cons k ks ih =>
    simp only [List.foldl_cons]
    rcases List.nodup_cons.mp hnd with ⟨hknotin, hndks⟩
    by_cases hck : c = k
    · subst hck
      have hrest : c ∉ ks := hknotin
      rw [foldl_mergeSplitStep_notmem cfg cols ks splitRows _ c hrest]
      unfold mergeSplitStep
      by_cases hdisc : c = cfg.annotationMode
      · rw [if_pos hdisc, if_pos hdisc]
        exact lookup_setAssoc_self _ _ _ _ hinit
      · rw [if_neg hdisc, if_neg hdisc]
        simp only [hinit, Option.getD_some]
        exact lookup_setAssoc_self _ _ _ _ hinit
    · have hcks : c ∈ ks := by
        rcases List.mem_cons.mp hc with h | h
        · exact absurd h hck
        · exact h
      refine ih _ hndks hcks ?_
      unfold mergeSplitStep
      by_cases hk : k = cfg.annotationMode
      · rw [if_pos hk, lookup_setAssoc_ne _ _ _ _ hck]; exact hinit
      · rw [if_neg hk, lookup_setAssoc_ne _ _ _ _ hck]; exact hinit

theorem mergeSplitLoop_lookup (cfg : Config) (cols : List String)
    (splitRows : List (List String)) (init : String → String) (c : String)
    (hnd : cols.Nodup) (hc : c ∈ cols) :
    List.lookup c (mergeSplitLoop cfg cols splitRows (cols.map (fun k => (k, init k))))
      = some (if c = cfg.annotationMode then cfg.mode
          else joinSep "|"
            (init c :: splitRows.map (fun r => remove_decimal_or_strip (cellD cols r c)))) := by
  have heq : mergeSplitLoop cfg cols splitRows (cols.map (fun k => (k, init k)))
      = cols.foldl (mergeSplitStep cfg cols splitRows) (cols.map (fun k => (k, init k))) := rfl
  rw [heq]
  exact foldl_mergeSplitStep_mem cfg cols cols splitRows _ c (init c) hnd hc
    (lookup_map_keyfun init cols c hc)

deriving instance DecidableEq for Except

/-! ## Concrete fixtures used by witnesses and counterexamples -/

/-- A representative AnnotSV-from-VCF configuration. -/
def cfgA : Config := {
  mode := "full&split", origin := "AnnotSV", defaultGenotype := "0/1",
  chrom := .str "SV_chrom", pos := .str "SV_start", idc := .str "",
  refc := .str "REF", altc := .str "ALT", qual := .str "", filterc := .str "",
  sample := "Samples_ID", format := "FORMAT", info := "INFO",
  annotationMode := "Annotation_mode", svType := "SV_type",
  annotsvId := "AnnotSV_ID", infoColsSpecs := [.str "INFO", .str "Annotation_mode",
    .str "SV_type", .str "AnnotSV_ID"],
  descREF := [], descALT := [], descINFO := [("Gene", "String", "Gene name")],
  descFORMAT := [], genomeHeader := ["##contig=<ID=chr1>"] }

/-! ## Claim C6 -/

/-- Claim C6: for every variant group containing more than one row tagged
    `full` (the group otherwise well-formed: mode `full&split`, discriminator
    column present, every tag `full` or `split`), `_merge_full_and_split`
    fails with the multiple-full `ValueError` (the spec's `ValidationError`)
    and produces no merged annotation. -/
theorem claimC6_thm (cfg : Config) (df : Frame)
    (hmode : cfg.mode = "full&split")
    (hdisc : cfg.annotationMode ∈ (stripBaseVcfCols df).cols)
    (htags : ∀ r ∈ (stripBaseVcfCols df).rows,
      rowTag cfg (stripBaseVcfCols df).cols r = "full"
        ∨ rowTag cfg (stripBaseVcfCols df).cols r = "split")
    (hfull : 1 < ((stripBaseVcfCols df).rows.filter
      (fun r => rowTag cfg (stripBaseVcfCols df).cols r = "full")).length) :
    merge_full_and_split cfg df = .error .multipleFull := by
  simp only [merge_full_and_split]
  rw [if_neg (by simp [hmode])]
  rw [if_neg (by simp [hdisc])]
  rw [if_neg (by
    simp only [Bool.not_eq_true, List.any_eq_false]
    intro r hr
    rcases htags r hr with h | h <;> simp [h])]
  rw [if_neg (by
    simp only [Bool.not_eq_true, List.isEmpty_eq_false]
    intro hnil
    rw [hnil] at hfull
    simp at hfull)]
  rw [if_pos hfull]

/-- A group with two `full` rows. -/
def dfC6w : Frame := {
  cols := ["AnnotSV_ID", "Annotation_mode", "Gene", "SV_type"],
  rows := [["V1", "full", "BRCA1", "DEL"], ["V1", "full", "BRCA2", "DEL"]] }

/-- Witness for C6 at a concrete group with two `full` rows. -/
theorem claimC6_wit :
    merge_full_and_split cfgA dfC6w = Except.error VErr.multipleFull :=
  claimC6_thm cfgA dfC6w (by decide) (by decide) (by decide) (by decide)

/-! ## Claim C7 -/

/-- A one-row group whose table has no discriminator column at all. -/
def dfC7 : Frame := {
  cols := ["AnnotSV_ID", "Gene", "SV_type"],
  rows := [["V1", "BRCA1", "DEL"]] }

/-- Claim C7 (code bug): the claim says a group whose discriminator column is
    missing yields a warning and an empty merged annotation, and the
    conversion keeps going.  In the code, `df.groupby` on the missing
    `Annotation_mode` column raises `KeyError` before the warning branch can
    run, so the conversion aborts instead: evaluated here on a concrete
    group with no discriminator column. -/
theorem claimC7_thm :
    merge_full_and_split cfgA dfC7 = Except.error VErr.groupKeyError := by decide

/-! ## Claim C1 -/

theorem merge_ok_nofull (cfg : Config) (df : Frame)
    (hmode : cfg.mode = "full&split")
    (hdisc : cfg.annotationMode ∈ (stripBaseVcfCols df).cols)
    (htags : ∀ r ∈ (stripBaseVcfCols df).rows,
      rowTag cfg (stripBaseVcfCols df).cols r = "full"
        ∨ rowTag cfg (stripBaseVcfCols df).cols r = "split")
    (hnofull : (stripBaseVcfCols df).rows.filter
      (fun r => rowTag cfg (stripBaseVcfCols df).cols r = "full") = [])
    (hsplit : (stripBaseVcfCols df).rows.filter
      (fun r => rowTag cfg (stripBaseVcfCols df).cols r = "split") ≠ []) :
    merge_full_and_split cfg df = .ok (mergeSplitLoop cfg (stripBaseVcfCols df).cols
      ((stripBaseVcfCols df).rows.filter
        (fun r => rowTag cfg (stripBaseVcfCols df).cols r = "split"))
      ((stripBaseVcfCols df).cols.map (fun c => (c, ".")))) := by
  simp only [merge_full_and_split]
  rw [if_neg (by simp [hmode])]
  rw [if_neg (by simp [hdisc])]
  rw [if_neg (by
    simp only [Bool.not_eq_true, List.any_eq_false]
    intro r hr
    rcases htags r hr with h | h <;> simp [h])]
  rw [if_pos (by rw [List.isEmpty_iff]; exact hnofull)]
  rw [if_neg (by rw [Bool.not_eq_true, List.isEmpty_eq_false]; exact hsplit)]

theorem merge_ok_fullfirst (cfg : Config) (df : Frame) (rh : List String)
    (hmode : cfg.mode = "full&split")
    (hdisc : cfg.annotationMode ∈ (stripBaseVcfCols df).cols)
    (htags : ∀ r ∈ (stripBaseVcfCols df).rows,
      rowTag cfg (stripBaseVcfCols df).cols r = "full"
        ∨ rowTag cfg (stripBaseVcfCols df).cols r = "split")
    (hone : ((stripBaseVcfCols df).rows.filter
      (fun r => rowTag cfg (stripBaseVcfCols df).cols r = "full")).length ≤ 1)
    (hh : (stripBaseVcfCols df).rows.head? = some rh)
    (htagrh : rowTag cfg (stripBaseVcfCols df).cols rh = "full")
    (hsplit : (stripBaseVcfCols df).rows.filter
      (fun r => rowTag cfg (stripBaseVcfCols df).cols r = "split") ≠ []) :
    merge_full_and_split cfg df = .ok (mergeSplitLoop cfg (stripBaseVcfCols df).cols
      ((stripBaseVcfCols df).rows.filter
        (fun r => rowTag cfg (stripBaseVcfCols df).cols r = "split"))
      ((stripBaseVcfCols df).cols.map (fun c =>
        (c, remove_decimal_or_strip (cellD (stripBaseVcfCols df).cols rh c))))) := by
  have hfne : (stripBaseVcfCols df).rows.filter
      (fun r => rowTag cfg (stripBaseVcfCols df).cols r = "full") ≠ [] := by
    obtain ⟨t, hrows⟩ : ∃ t, (stripBaseVcfCols df).rows = rh :: t := by
      cases hr : (stripBaseVcfCols df).rows with
      | nil => rw [hr] at hh; simp at hh
      | cons a t => rw [hr] at hh; simp at hh; exact ⟨t, by rw [hh]⟩
    rw [hrows]
    rw [List.filter_cons_of_pos (by simp [htagrh])]
    simp
  simp only [merge_full_and_split]
  rw [if_neg (by simp [hmode])]
  rw [if_neg (by simp [hdisc])]
  rw [if_neg (by
    simp only [Bool.not_eq_true, List.any_eq_false]
    intro r hr
    rcases htags r hr with h | h <;> simp [h])]
  rw [if_neg (by rw [Bool.not_eq_true, List.isEmpty_eq_false]; exact hfne)]
  rw [if_neg (by omega)]
  rw [hh]
  simp only [htagrh, if_pos]
  rw [if_neg (by rw [Bool.not_eq_true, List.isEmpty_eq_false]; exact hsplit)]

/-- Claim C1 (amended): for every variant group with at least one `split` row
    — satisfying the data-model invariants (at most one `full` row, every tag
    `full`/`split`, discriminator column present, distinct column labels) —
    and PROVIDED the `full` row, when present, is the group's first row (the
    amendment: the code looks the full row up at the group's first index and
    raises `KeyError` otherwise), each merged field other than the
    discriminator is the full row's decimal-normalised value (`.` if no full
    row) followed by every split row's decimal-normalised value in original
    row order, pipe-joined without deduplication, while the discriminator is
    hard-set to `full&split`. -/
theorem claimC1_thm (cfg : Config) (df : Frame)
    (hmode : cfg.mode = "full&split")
    (hdisc : cfg.annotationMode ∈ (stripBaseVcfCols df).cols)
    (hnd : (stripBaseVcfCols df).cols.Nodup)
    (htags : ∀ r ∈ (stripBaseVcfCols df).rows,
      rowTag cfg (stripBaseVcfCols df).cols r = "full"
        ∨ rowTag cfg (stripBaseVcfCols df).cols r = "split")
    (hone : ((stripBaseVcfCols df).rows.filter
      (fun r => rowTag cfg (stripBaseVcfCols df).cols r = "full")).length ≤ 1)
    (hsplit : (stripBaseVcfCols df).rows.filter
      (fun r => rowTag cfg (stripBaseVcfCols df).cols r = "split") ≠ [])
    (hfirst : (stripBaseVcfCols df).rows.filter
        (fun r => rowTag cfg (stripBaseVcfCols df).cols r = "full") ≠ [] →
      ∃ rh, (stripBaseVcfCols df).rows.head? = some rh
        ∧ rowTag cfg (stripBaseVcfCols df).cols rh = "full") :
    ∃ annots, merge_full_and_split cfg df = .ok annots ∧
      (∀ c ∈ (stripBaseVcfCols df).cols, c ≠ cfg.annotationMode →
        List.lookup c annots = some (joinSep "|"
          ((((stripBaseVcfCols df).rows.filter
              (fun r => rowTag cfg (stripBaseVcfCols df).cols r = "full")).head?.elim "."
             (fun rf => remove_decimal_or_strip (cellD (stripBaseVcfCols df).cols rf c)))
            :: ((stripBaseVcfCols df).rows.filter
              (fun r => rowTag cfg (stripBaseVcfCols df).cols r = "split")).map
                (fun r => remove_decimal_or_strip (cellD (stripBaseVcfCols df).cols r c))))) ∧
      List.lookup cfg.annotationMode annots = some "full&split" := by
  by_cases hF : (stripBaseVcfCols df).rows.filter
      (fun r => rowTag cfg (stripBaseVcfCols df).cols r = "full") = []
  · refine ⟨_, merge_ok_nofull cfg df hmode hdisc htags hF hsplit, ?_, ?_⟩
    · intro c hc hcd
      rw [mergeSplitLoop_lookup cfg _ _ (fun _ => ".") c hnd hc]
      rw [if_neg hcd, hF]
      rfl
    · rw [mergeSplitLoop_lookup cfg _ _ (fun _ => ".") cfg.annotationMode hnd hdisc]
      rw [if_pos rfl, hmode]
  · obtain ⟨rh, hh, htagrh⟩ := hfirst hF
    obtain ⟨t, hrows⟩ : ∃ t, (stripBaseVcfCols df).rows = rh :: t := by
      cases hr : (stripBaseVcfCols df).rows with
      | nil => rw [hr] at hh; simp at hh
      | cons a t => rw [hr] at hh; simp at hh; exact ⟨t, by rw [hh]⟩
    have hfhead : ((stripBaseVcfCols df).rows.filter
        (fun r => rowTag cfg (stripBaseVcfCols df).cols r = "full")).head?
          = some rh := by
      rw [hrows, List.filter_cons_of_pos (by simp [htagrh])]
      rfl
    refine ⟨_, merge_ok_fullfirst cfg df rh hmode hdisc htags hone hh htagrh hsplit, ?_, ?_⟩
    · intro c hc hcd
      rw [mergeSplitLoop_lookup cfg _ _
        (fun k => remove_decimal_or_strip (cellD (stripBaseVcfCols df).cols rh k)) c hnd hc]
      rw [if_neg hcd, hfhead]
      rfl
    · rw [mergeSplitLoop_lookup cfg _ _
        (fun k => remove_decimal_or_strip (cellD (stripBaseVcfCols df).cols rh k))
        cfg.annotationMode hnd hdisc]
      rw [if_pos rfl, hmode]

/-- A group listing its split row before its full row. -/
def dfC1x : Frame := {
  cols := ["AnnotSV_ID", "Annotation_mode", "Gene", "SV_type"],
  rows := [["V1", "split", "BRCA1_tx2", "DEL"], ["V1", "full", "BRCA1", "DEL"]] }

/-- Counterexample to C1 as stated: on a group whose (single) `full` row comes
    after its `split` row, the merge does not produce the claimed pipe-joined
    values at all — `dfs["full"].loc[df.index[0], ann]` raises `KeyError`, so
    there is no merged annotation for this group. -/
theorem claimC1_cex :
    merge_full_and_split cfgA dfC1x = Except.error VErr.locKeyError := by decide

/-- The same group with the full row first, as the amended claim requires. -/
def dfC1w : Frame := {
  cols := ["AnnotSV_ID", "Annotation_mode", "Gene", "SV_type"],
  rows := [["V1", "full", "BRCA1", "DEL"], ["V1", "split", "BRCA1_tx2", "DEL"]] }

/-- Witness for the amended C1 at a concrete full-then-split group. -/
theorem claimC1_wit :
    ∃ annots, merge_full_and_split cfgA dfC1w = Except.ok annots ∧
      List.lookup "Gene" annots = some "BRCA1|BRCA1_tx2" ∧
      List.lookup "Annotation_mode" annots = some "full&split" := by
  obtain ⟨annots, hok, hvals, hdiscv⟩ := claimC1_thm cfgA dfC1w (by decide) (by decide)
    (by decide) (by decide) (by decide) (by decide)
    (fun _ => ⟨["V1", "full", "BRCA1", "DEL"], by decide, by decide⟩)
  refine ⟨annots, hok, ?_, hdiscv⟩
  rw [hvals "Gene" (by decide) (by decide)]
  decide

/-! ## Claim C3 -/

/-- A one-group table from a VCF-derived AnnotSV file, with main VCF columns,
    FORMAT, a sample column, the samples column and the raw INFO column. -/
def dfC3 : Frame := {
  cols := ["AnnotSV_ID", "SV_chrom", "SV_start", "REF", "ALT", "Annotation_mode",
           "SV_type", "Gene", "FORMAT", "Samples_ID", "s1", "INFO"],
  rows := [["V1", "chr1", "100", "A", "<DEL>", "full", "DEL", "BRCA1", "GT", "s1", "0/1", "dcn"]] }

/-- Claim C3 (code bug): the claim says merged-annotation keys never include
    the main VCF-role columns, FORMAT, the samples column, per-sample columns
    or the raw INFO column, because all are stripped before the merge.  The
    drop loop of `_build_input_annot_df` rebinds `df` from the original frame
    on every iteration, so only the LAST existing droppable column (the raw
    INFO column) is removed: on this concrete table the merged keys still
    contain the chromosome column `SV_chrom`, the position column `SV_start`,
    `FORMAT`, the samples column `Samples_ID` and the sample column `s1`. -/
theorem claimC3_thm :
    get_sample_list cfgA dfC3 = Except.ok ["s1"] ∧
    (get_main_vcf_cols cfgA dfC3).1
      = ["SV_chrom", "SV_start", "ID", "REF", "ALT", "QUAL", "FILTER"] ∧
    build_info_dic cfgA ["s1"] (get_main_vcf_cols cfgA dfC3).1 (get_main_vcf_cols cfgA dfC3).2
      = Except.ok [("V1",
        [("AnnotSV_ID", "V1"), ("SV_chrom", "chr1"), ("SV_start", "100"),
         ("Annotation_mode", "full"), ("SV_type", "DEL"), ("Gene", "BRCA1"),
         ("FORMAT", "GT"), ("Samples_ID", "s1"), ("s1", "0/1")])] := by
  refine ⟨by decide, by decide, by decide⟩

/-! ## Claim C8 -/

/-- Claim C8 (amended): the sample check fires only when the FORMAT role is
    configured as the LITERAL column name `FORMAT` (not merely "mapped to an
    actual column"); in that case, whenever some comma-derived sample name
    has no column of its own, `_get_sample_list` fails with the
    sample-column `ValueError` (the spec's `SchemaMismatchError`). -/
theorem claimC8_thm (cfg : Config) (f : Frame)
    (hfmt : cfg.format = "FORMAT")
    (hsc : cfg.sample ∈ f.cols)
    (hmiss : ¬ (uniqueKeepFirst ((f.rows.map (fun r => cellD f.cols r cfg.sample)).foldr
        (fun cell acc =>
          (if cell.data.contains ',' then pySplit ',' cell else [cell]) ++ acc) [])).all
      (fun s => f.cols.contains s)) :
    get_sample_list cfg f = .error .schemaMismatch := by
  simp only [get_sample_list]
  rw [if_neg (by simp [hsc])]
  rw [if_pos hfmt]
  rw [if_pos hmiss]

/-- A FORMAT-mapped table (role mapped to the real column `FMT`) declaring a
    sample `S1` that has no column of its own. -/
def cfgC8 : Config := { cfgA with format := "FMT" }

/-- The table for the C8 counterexample: `FMT` is a real column, the samples
    column declares `S1`, and there is no `S1` column. -/
def dfC8 : Frame := {
  cols := ["AnnotSV_ID", "Annotation_mode", "SV_type", "FMT", "Samples_ID"],
  rows := [["V1", "full", "DEL", "GT", "S1"]] }

/-- Counterexample to C8 as stated: the FORMAT role is mapped to the actual
    column `FMT` of the table and the declared sample `S1` has no column, yet
    sample resolution succeeds — the code only validates when the configured
    FORMAT value is the literal string `FORMAT` (line 62 compares
    `config["VCF_COLUMNS"]["FORMAT"] == "FORMAT"`). -/
theorem claimC8_cex :
    cfgC8.format ∈ dfC8.cols ∧ ("S1" ∈ dfC8.cols → False) ∧
    get_sample_list cfgC8 dfC8 = Except.ok ["S1"] := by decide

/-- Witness for the amended C8: config FORMAT is the literal `FORMAT`, sample
    `S1` is declared but has no column, so resolution fails. -/
def dfC8w : Frame := {
  cols := ["AnnotSV_ID", "Annotation_mode", "SV_type", "FORMAT", "Samples_ID"],
  rows := [["V1", "full", "DEL", "GT", "S1,S2"]] }

theorem claimC8_wit :
    get_sample_list cfgA dfC8w = Except.error VErr.schemaMismatch :=
  claimC8_thm cfgA dfC8w (by decide) (by decide) (by decide)

/-! ## Claim C10 -/

theorem semifree_replaceSemi (s : String) : ';' ∉ (replaceSemi s).data := by
  intro h
  simp only [replaceSemi] at h
  rcases List.mem_map.mp h with ⟨c, _, hc⟩
  by_cases hcs : c = ';' <;> simp [hcs] at hc

theorem semifree_rds (s : String) (h : ';' ∉ s.data) :
    ';' ∉ (remove_decimal_or_strip s).data := by
  unfold remove_decimal_or_strip
  split
  · intro hmem
    simp only [String.mk] at hmem
    rw [List.mem_reverse] at hmem
    have h1 : ';' ∈ s.data.reverse.dropWhile (fun c => c = '0') := by
      revert hmem
      split
      · intro hm; exact List.Sublist.mem hm (List.tail_sublist _)
      · intro hm; exact hm
    have h2 : ';' ∈ s.data.reverse := List.Sublist.mem h1 (List.dropWhile_sublist _)
    exact h (List.mem_reverse.mp h2)
  · exact h

theorem semifree_joinSep (sep : String) (parts : List String)
    (hsep : ';' ∉ sep.data) (hp : ∀ x ∈ parts, ';' ∉ x.data) :
    ';' ∉ (joinSep sep parts).data := by
  induction parts with
  | nil => simp [joinSep, String.data]
  | cons x xs ih =>
    cases xs with
    | nil => simpa [joinSep] using hp x (List.mem_cons_self _ _)
    | cons y ys =>
      simp only [joinSep, String.data_append, List.mem_append]
      push_neg
      refine ⟨⟨hp x (List.mem_cons_self _ _), hsep⟩, ?_⟩
      exact ih (fun z hz => hp z (List.mem_cons_of_mem _ hz))

theorem cellD_prop (P : String → Prop) (hP : P ".") (cols r : List String) (c : String)
    (hr : ∀ v ∈ r, P v) : P (cellD cols r c) := by
  unfold cellD
  split
  · rename_i i hi
    cases hg : r.get? i with
    | none => simpa [hg] using hP
    | some v => simpa [hg] using hr v (List.get?_mem hg)
  · exact hP

theorem lookup_some_mem (l : List (String × String)) (k v : String)
    (h : List.lookup k l = some v) : ∃ kv ∈ l, kv.2 = v := by
  induction l with
  | nil => simp [List.lookup] at h
  | cons p ps ih =>
    by_cases hk : k = p.1
    · rw [lookup_cons_fst k p ps hk] at h
      exact ⟨p, List.mem_cons_self _ _, (Option.some_inj.mp h).symm ▸ rfl⟩
    · rw [lookup_cons_ne k p ps hk] at h
      rcases ih h with ⟨kv, hm, hv⟩
      exact ⟨kv, List.mem_cons_of_mem _ hm, hv⟩

theorem setAssoc_keys (l : List (String × String)) (k v : String) :
    (setAssoc l k v).map Prod.fst = l.map Prod.fst := by
  induction l with
  | nil => rfl
  | cons p ps ih =>
    rw [setAssoc_cons]
    simp only [List.map_cons, ih]
    by_cases hk : p.1 = k <;> simp [hk]

theorem mergeSplitStep_keys (cfg : Config) (cols : List String)
    (sr : List (List String)) (acc : List (String × String)) (ann : String) :
    (mergeSplitStep cfg cols sr acc ann).map Prod.fst = acc.map Prod.fst := by
  unfold mergeSplitStep
  split <;> simp [setAssoc_keys]

theorem foldl_mergeSplitStep_keys (cfg : Config) (cols keys : List String)
    (sr : List (List String)) (acc : List (String × String)) :
    (keys.foldl (mergeSplitStep cfg cols sr) acc).map Prod.fst = acc.map Prod.fst := by
  induction keys generalizing acc with
  | nil => rfl
  | cons k ks ih => rw [List.foldl_cons, ih, mergeSplitStep_keys]

theorem mergeSplitLoop_keys (cfg : Config) (cols : List String)
    (sr : List (List String)) (annots : List (String × String)) :
    (mergeSplitLoop cfg cols sr annots).map Prod.fst = annots.map Prod.fst :=
  foldl_mergeSplitStep_keys cfg cols cols sr annots

theorem mergeSplitStep_values (cfg : Config) (cols : List String)
    (sr : List (List String)) (acc : List (String × String)) (ann : String)
    (hmode : ';' ∉ cfg.mode.data)
    (hsr : ∀ r ∈ sr, ∀ v ∈ r, ';' ∉ v.data)
    (hacc : ∀ kv ∈ acc, ';' ∉ kv.2.data) :
    ∀ kv ∈ mergeSplitStep cfg cols sr acc ann, ';' ∉ kv.2.data := by
  have hnew : ∀ w : String, ';' ∉ w.data →
      ∀ kv ∈ setAssoc acc ann w, ';' ∉ kv.2.data := by
    intro w hw kv hkv
    rcases List.mem_map.mp hkv with ⟨p, hp, hpe⟩
    by_cases hpk : p.1 = ann
    · rw [if_pos hpk] at hpe; rw [← hpe]; exact hw
    · rw [if_neg hpk] at hpe; rw [← hpe]; exact hacc p hp
  unfold mergeSplitStep
  split
  · exact hnew cfg.mode hmode
  · refine hnew _ ?_
    refine semifree_joinSep "|" _ (by decide) ?_
    intro x hx
    rcases List.mem_cons.mp hx with hx | hx
    · subst hx
      cases hl : List.lookup ann acc with
      | none => simp [hl]
      | some v =>
        simp only [hl, Option.getD_some]
        rcases lookup_some_mem acc ann v hl with ⟨kv, hkv, hv⟩
        rw [← hv]; exact hacc kv hkv
    · rcases List.mem_map.mp hx with ⟨r, hr, hre⟩
      rw [← hre]
      exact semifree_rds _ (cellD_prop (fun s => ';' ∉ s.data) (by decide) cols r _ (hsr r hr))

theorem mergeSplitLoop_values (cfg : Config) (cols : List String)
    (sr : List (List String)) (annots : List (String × String))
    (hmode : ';' ∉ cfg.mode.data)
    (hsr : ∀ r ∈ sr, ∀ v ∈ r, ';' ∉ v.data)
    (hann : ∀ kv ∈ annots, ';' ∉ kv.2.data) :
    ∀ kv ∈ mergeSplitLoop cfg cols sr annots, ';' ∉ kv.2.data := by
  have hgen : ∀ (keys : List String) (acc : List (String × String)),
      (∀ kv ∈ acc, ';' ∉ kv.2.data) →
      ∀ kv ∈ keys.foldl (mergeSplitStep cfg cols sr) acc, ';' ∉ kv.2.data := by
    intro keys
    induction keys with
    | nil => intro acc hacc; exact hacc
    | cons k ks ih =>
      intro acc hacc
      rw [List.foldl_cons]
      exact ih _ (mergeSplitStep_values cfg cols sr acc k hmode hsr hacc)
  exact hgen cols annots hann

theorem strip_row_cells (df : Frame) (r' : List String)
    (h : r' ∈ (stripBaseVcfCols df).rows) (v : String) (hv : v ∈ r') :
    ∃ r ∈ df.rows, v ∈ r := by
  simp only [stripBaseVcfCols, dropColsFrame] at h
  rcases List.mem_map.mp h with ⟨r, hr, hre⟩
  refine ⟨r, hr, ?_⟩
  rw [← hre] at hv
  rcases List.mem_map.mp hv with ⟨p, hp, hpe⟩
  have hz := List.mem_filter.mp hp
  rcases List.of_mem_zip hz.1 with ⟨_, h2⟩
  rw [← hpe]
  exact h2

theorem merge_values_semifree (cfg : Config) (df : Frame)
    (hmode : ';' ∉ cfg.mode.data)
    (hcells : ∀ r ∈ df.rows, ∀ v ∈ r, ';' ∉ v.data)
    (annots : List (String × String))
    (hok : merge_full_and_split cfg df = .ok annots) :
    (∀ kv ∈ annots, ';' ∉ kv.2.data) ∧
      (∀ kv ∈ annots, kv.1 ∈ (stripBaseVcfCols df).cols) := by
  have hcells' : ∀ r ∈ (stripBaseVcfCols df).rows, ∀ v ∈ r, ';' ∉ v.data := by
    intro r hr v hv
    rcases strip_row_cells df r hr v hv with ⟨r0, hr0, hvr0⟩
    exact hcells r0 hr0 v hvr0
  have hsr : ∀ r ∈ (stripBaseVcfCols df).rows.filter
      (fun r => rowTag cfg (stripBaseVcfCols df).cols r = "split"),
      ∀ v ∈ r, ';' ∉ v.data := by
    intro r hr
    exact hcells' r (List.mem_of_mem_filter hr)
  have hkeyinit : ∀ (g : String → String),
      ((stripBaseVcfCols df).cols.map (fun c => (c, g c))).map Prod.fst
        = (stripBaseVcfCols df).cols := by
    intro g
    induction (stripBaseVcfCols df).cols with
    | nil => rfl
    | cons c cs ih => simp only [List.map_cons, ih]
  simp only [merge_full_and_split] at hok
  split at hok
  · cases hok
  split at hok
  · cases hok
  split at hok
  · cases hok
  split at hok
  · -- no full rows
    split at hok
    · -- no split rows either: empty annotation
      cases hok
      constructor
      · intro kv h; cases h
      · intro kv h; cases h
    · -- seed with "." then run the split loop
      cases hok
      constructor
      · refine mergeSplitLoop_values cfg _ _ _ hmode hsr ?_
        intro kv hkv
        rcases List.mem_map.mp hkv with ⟨c, _, hce⟩
        rw [← hce]
        exact (show ';' ∉ (".":String).data by decide)
      · intro kv hkv
        have hmm := List.mem_map_of_mem Prod.fst hkv
        rw [mergeSplitLoop_keys, hkeyinit] at hmm
        exact hmm
  · -- a full row is present
    split at hok
    · cases hok
    split at hok
    · cases hok
    next r0 hr0 =>
      split at hok
      · -- first row is the full row
        have hr0mem : r0 ∈ (stripBaseVcfCols df).rows := by
          cases hrows : (stripBaseVcfCols df).rows with
          | nil => rw [hrows] at hr0; cases hr0
          | cons a t =>
            rw [hrows] at hr0
            simp only [List.head?_cons, Option.some_inj] at hr0
            rw [← hr0]
            exact List.mem_cons_self _ _
        have hinit : ∀ kv ∈ (stripBaseVcfCols df).cols.map (fun c =>
            (c, remove_decimal_or_strip (cellD (stripBaseVcfCols df).cols r0 c))),
            ';' ∉ kv.2.data := by
          intro kv hkv
          rcases List.mem_map.mp hkv with ⟨c, _, hce⟩
          rw [← hce]
          exact semifree_rds _ (cellD_prop (fun s => ';' ∉ s.data) (by decide) _ _ _
            (hcells' r0 hr0mem))
        split at hok
        · cases hok
          constructor
          · exact hinit
          · intro kv hkv
            have hmm := List.mem_map_of_mem Prod.fst hkv
            rw [hkeyinit] at hmm
            exact hmm
        · cases hok
          constructor
          · exact mergeSplitLoop_values cfg _ _ _ hmode hsr hinit
          · intro kv hkv
            have hmm := List.mem_map_of_mem Prod.fst hkv
            rw [mergeSplitLoop_keys, hkeyinit] at hmm
            exact hmm
      · cases hok

theorem build_input_annot_df_shape (cfg : Config) (sl mc : List String)
    (input df' : Frame)
    (hok : build_input_annot_df cfg sl mc input = .ok df') :
    (∀ r ∈ df'.rows, ∀ v ∈ r, ';' ∉ v.data) ∧ (∀ c ∈ df'.cols, c ∈ input.cols) := by
  have hfold : ∀ (cols : List String) (acc : Option Frame),
      (acc = none ∨ ∃ c, acc = some (dropColsFrame input [c])) →
      (cols.foldl (fun acc col =>
          if input.cols.contains col then some (dropColsFrame input [col]) else acc) acc
        = none ∨ ∃ c, cols.foldl (fun acc col =>
          if input.cols.contains col then some (dropColsFrame input [col]) else acc) acc
        = some (dropColsFrame input [c])) := by
    intro cols
    induction cols with
    | nil => intro acc h; exact h
    | cons c cs ih =>
      intro acc h
      rw [List.foldl_cons]
      refine ih _ ?_
      by_cases hc : input.cols.contains c
      · rw [if_pos hc]; exact Or.inr ⟨c, rfl⟩
      · rw [if_neg hc]; exact h
  simp only [build_input_annot_df] at hok
  rcases hfold (sl ++ mc ++ [cfg.sample, cfg.format, cfg.info]) none (Or.inl rfl)
    with hnone | ⟨c, hsome⟩
  · rw [hnone] at hok; cases hok
  · rw [hsome] at hok
    simp only [] at hok
    split at hok
    · cases hok
    · cases hok
      constructor
      · intro r hr v hv
        simp only [replaceFrame] at hr
        rcases List.mem_map.mp hr with ⟨r0, _, hre⟩
        rw [← hre] at hv
        rcases List.mem_map.mp hv with ⟨v0, _, hve⟩
        rw [← hve]
        exact semifree_replaceSemi v0
      · intro cc hcc
        simp only [replaceFrame, dropColsFrame] at hcc
        exact List.mem_of_mem_filter hcc

theorem mapMExcept_ok_mem {A B : Type} (f : A → Except VErr B) (l : List A)
    (ys : List B) (hok : mapMExcept f l = .ok ys) :
    ∀ y ∈ ys, ∃ x ∈ l, f x = .ok y := by
  induction l generalizing ys with
  | nil =>
    cases hok
    intro y hy; cases hy
  | cons x xs ih =>
    intro y hy
    simp only [mapMExcept] at hok
    cases hfx : f x with
    | error e => rw [hfx] at hok; cases hok
    | ok y0 =>
      rw [hfx] at hok
      cases hrest : mapMExcept f xs with
      | error e =>
        rw [hrest] at hok
        cases hok
      | ok ys0 =>
        rw [hrest] at hok
        simp only [bind, Except.bind, pure, Except.pure] at hok
        cases hok
        rcases List.mem_cons.mp hy with hy | hy
        · exact ⟨x, List.mem_cons_self _ _, by rw [hfx, hy]⟩
        · rcases ih ys0 hrest y hy with ⟨x1, hx1, hfx1⟩
          exact ⟨x1, List.mem_cons_of_mem _ hx1, hfx1⟩

theorem count_joinSep_semis (parts : List String) (hp : ∀ x ∈ parts, ';' ∉ x.data) :
    (joinSep ";" parts).data.count ';' = parts.length - 1 := by
  induction parts with
  | nil => rfl
  | cons x xs ih =>
    cases xs with
    | nil =>
      simp only [joinSep, List.length_cons, List.length_nil]
      rw [List.count_eq_zero.mpr (hp x (List.mem_cons_self _ _))]
    | cons y ys =>
      simp only [joinSep] at ih ⊢
      rw [String.data_append, String.data_append, List.count_append, List.count_append]
      rw [List.count_eq_zero.mpr (hp x (List.mem_cons_self _ _))]
      rw [ih (fun z hz => hp z (List.mem_cons_of_mem _ hz))]
      simp only [List.length_cons, List.count_cons, List.count_nil,
        show (';' == ';') = true from rfl, if_true]
      omega

/-- Claim C10 (amended): every ';' in the annotation cells retained for
    merging is replaced by ',' before the merge, so no merged-annotation
    value contains a ';' and — PROVIDED no retained column name itself
    contains a ';' (the amendment: `df.replace` rewrites cell values only,
    never column labels) — the ';' characters of an emitted INFO field are
    exactly the separators between its key=value pairs (their count is the
    number of pairs minus one). -/
theorem claimC10_thm (cfg : Config) (sl mc : List String) (input : Frame)
    (hmode : cfg.mode = "full&split")
    (hkeys : ∀ c ∈ input.cols, ';' ∉ c.data)
    (dic : List (String × List (String × String)))
    (hok : build_info_dic cfg sl mc input = .ok dic) :
    ∀ g ∈ dic, (∀ kv ∈ g.2, ';' ∉ kv.2.data) ∧
      (infoStringOf g.2).data.count ';' = g.2.length - 1 := by
  intro g hg
  simp only [build_info_dic] at hok
  cases hbi : build_input_annot_df cfg sl mc input with
  | error e => rw [hbi] at hok; cases hok
  | ok df' =>
    rw [hbi] at hok
    simp only [bind, Except.bind] at hok
    rcases build_input_annot_df_shape cfg sl mc input df' hbi with ⟨hcells, hcols⟩
    split at hok
    · cases hok
    · simp only [pure, Except.pure, bind, Except.bind] at hok
      rcases mapMExcept_ok_mem _ _ _ hok g hg with ⟨vid, _, hfe⟩
      cases hme : merge_full_and_split cfg (Frame.mk df'.cols
          (df'.rows.filter (fun r => cellD df'.cols r cfg.annotsvId = vid))) with
      | error e => rw [hme] at hfe; cases hfe
      | ok m =>
        rw [hme] at hfe
        cases hfe
        have hsubcells : ∀ r ∈ (Frame.mk df'.cols
            (df'.rows.filter (fun r => cellD df'.cols r cfg.annotsvId = vid))).rows,
            ∀ v ∈ r, ';' ∉ v.data := by
          intro r hr
          exact hcells r (List.mem_of_mem_filter hr)
        have hmodesemi : ';' ∉ cfg.mode.data := by
          rw [hmode]; decide
        rcases merge_values_semifree cfg _ hmodesemi hsubcells m hme with ⟨hvals, hks⟩
        refine ⟨hvals, ?_⟩
        have hpartsfree : ∀ x ∈ m.map (fun kv => kv.1 ++ "=" ++ kv.2), ';' ∉ x.data := by
          intro x hx
          rcases List.mem_map.mp hx with ⟨kv, hkv, hxe⟩
          rw [← hxe, String.data_append, String.data_append]
          intro hmem
          rcases List.mem_append.mp hmem with hmem | hmem
          · rcases List.mem_append.mp hmem with hmem | hmem
            · have hk1 := hks kv hkv
              have hk2 : kv.1 ∈ df'.cols := by
                simp only [stripBaseVcfCols, dropColsFrame] at hk1
                exact List.mem_of_mem_filter hk1
              exact hkeys kv.1 (hcols _ hk2) hmem
            · revert hmem; decide
          · exact hvals kv hkv hmem
        have hcount := count_joinSep_semis _ hpartsfree
        show List.count ';' (infoStringOf m).data = m.length - 1
        simp only [infoStringOf]
        rw [hcount, List.length_map]


/-- A table whose annotation column is literally named `a;b`. -/
def dfC10x : Frame := {
  cols := ["AnnotSV_ID", "Annotation_mode", "SV_type", "a;b", "INFO"],
  rows := [["V1", "full", "DEL", "x;y", "inf"]] }

/-- The merged annotations of `dfC10x` (cell `x;y` cleaned to `x,y`, the
    column label `a;b` kept verbatim). -/
def annC10x : List (String × String) :=
  [("AnnotSV_ID", "V1"), ("Annotation_mode", "full"), ("SV_type", "DEL"), ("a;b", "x,y")]

/-- Counterexample to C10 as stated: with a retained column named `a;b`, the
    emitted INFO string `AnnotSV_ID=V1;Annotation_mode=full;SV_type=DEL;a;b=x,y`
    contains four ';' for four key=value pairs — one more than the three
    separators — so not every ';' of the INFO field is a pair separator. -/
theorem claimC10_cex :
    build_info_dic cfgA [] ["SV_chrom", "SV_start", "ID", "REF", "ALT", "QUAL", "FILTER"] dfC10x
      = Except.ok [("V1", annC10x)] ∧
    annC10x.length = 4 ∧
    (infoStringOf annC10x).data.count ';' = 4 := by decide

/-- A clean two-row group whose cells contain a ';' (in `g;h`). -/
def dfC10w : Frame := {
  cols := ["AnnotSV_ID", "Annotation_mode", "SV_type", "Gene", "INFO"],
  rows := [["V1", "full", "DEL", "g;h", "i1"], ["V1", "split", "DEL", "g2", "i2"]] }

/-- The merged annotations of `dfC10w` (the ';' of `g;h` became a comma). -/
def annC10w : List (String × String) :=
  [("AnnotSV_ID", "V1|V1"), ("Annotation_mode", "full&split"),
   ("SV_type", "DEL|DEL"), ("Gene", "g,h|g2")]

/-- Witness for the amended C10 at a concrete group whose cells contain ';'. -/
theorem claimC10_wit :
    build_info_dic cfgA [] ["SV_chrom", "SV_start", "ID", "REF", "ALT", "QUAL", "FILTER"] dfC10w
      = Except.ok [("V1", annC10w)] ∧
    (∀ kv ∈ annC10w, ';' ∉ kv.2.data) ∧
    (infoStringOf annC10w).data.count ';' = annC10w.length - 1 := by
  have hok : build_info_dic cfgA []
      ["SV_chrom", "SV_start", "ID", "REF", "ALT", "QUAL", "FILTER"] dfC10w
        = Except.ok [("V1", annC10w)] := by decide
  have h := claimC10_thm cfgA []
    ["SV_chrom", "SV_start", "ID", "REF", "ALT", "QUAL", "FILTER"] dfC10w
    (by decide) (by decide) [("V1", annC10w)] hok ("V1", annC10w) (List.mem_cons_self _ _)
  exact ⟨hok, h.1, h.2⟩

/-! ## Claim C9 -/

theorem build_input_annot_df_svtype_err (cfg : Config) (sl mc : List String) (f : Frame)
    (hsv : cfg.svType = "" ∨ cfg.svType ∉ f.cols) :
    ∃ e, build_input_annot_df cfg sl mc f = .error e := by
  simp only [build_input_annot_df]
  cases hfold : (sl ++ mc ++ [cfg.sample, cfg.format, cfg.info]).foldl (fun acc col =>
      if f.cols.contains col then some (dropColsFrame f [col]) else acc)
      (none : Option Frame) with
  | none => exact ⟨.nameError, rfl⟩
  | some df0 =>
    have hsub : ∀ c ∈ (replaceFrame df0).cols, c ∈ f.cols := by
      have hshape : ∀ (cols : List String) (acc : Option Frame),
          (acc = none ∨ ∃ c, acc = some (dropColsFrame f [c])) →
          cols.foldl (fun acc col =>
            if f.cols.contains col then some (dropColsFrame f [col]) else acc) acc = some df0 →
          ∃ c, df0 = dropColsFrame f [c] := by
        intro cols
        induction cols with
        | nil =>
          intro acc h hacc
          rcases h with h | ⟨c, h⟩
          · rw [h] at hacc; cases hacc
          · rw [h] at hacc
            exact ⟨c, (Option.some_inj.mp hacc).symm⟩
        | cons c cs ih =>
          intro acc h hacc
          rw [List.foldl_cons] at hacc
          refine ih _ ?_ hacc
          by_cases hc : f.cols.contains c
          · rw [if_pos hc]; exact Or.inr ⟨c, rfl⟩
          · rw [if_neg hc]; exact h
      rcases hshape _ none (Or.inl rfl) hfold with ⟨c, hdf0⟩
      intro cc hcc
      simp only [replaceFrame, hdf0, dropColsFrame] at hcc
      exact List.mem_of_mem_filter hcc
    rcases hsv with hsv | hsv
    · exact ⟨.svTypeMissing, by simp [hsv]⟩
    · have hnm : cfg.svType ∉ (replaceFrame df0).cols := fun hm => hsv (hsub _ hm)
      exact ⟨.svTypeMissing, by simp [hnm]⟩

/-- Claim C9 (amended): when the configured SV_type column name is empty or
    does not name a column of the table as augmented by the role-defaulting
    step (`_get_main_vcf_cols`, which adds placeholder columns named after
    unmapped main VCF roles), the conversion fails before any group is merged
    and before the output file is opened, so no output content is produced. -/
theorem claimC9_thm (cfg : Config) (helperReg : String → List String → String)
    (fileDate absInputPath : String) (input : Frame)
    (hsv : cfg.svType = "" ∨ cfg.svType ∉ ((get_main_vcf_cols cfg input).2).cols) :
    ∃ e, convert cfg helperReg fileDate absInputPath input = .error e := by
  simp only [convert]
  cases hsl : get_sample_list cfg input with
  | error e => exact ⟨e, by simp [bind, Except.bind]⟩
  | ok sl =>
    simp only [bind, Except.bind]
    rcases hgm : get_main_vcf_cols cfg input with ⟨mc, df2⟩
    rw [hgm] at hsv
    rcases build_input_annot_df_svtype_err cfg sl mc df2 hsv with ⟨e, hbi⟩
    have hdic : build_info_dic cfg sl mc df2 = .error e := by
      simp [build_info_dic, hbi, bind, Except.bind]
    refine ⟨e, ?_⟩
    simp [hdic, bind, Except.bind]

def cfgC9 : Config := { cfgA with svType := "ID" }

/-- Counterexample to C9 as stated: configure SV_type as `ID` while the
    loaded table has no `ID` column.  Because the `ID` role is unmapped,
    `_get_main_vcf_cols` creates a placeholder column named `ID`, the buggy
    drop loop keeps it, the SV_type check passes, and the conversion runs to
    completion and produces output. -/
theorem claimC9_cex :
    cfgC9.svType = "ID" ∧ ("ID" ∈ dfC3.cols → False) ∧
    (convert cfgC9 (fun _ _ => "") "DATE" "/inp.tsv" dfC3).isOk = true := by decide

def cfgC9w : Config := { cfgA with svType := "Nope" }

/-- Witness for the amended C9: an SV_type name matching no column at all
    (also no placeholder) aborts the conversion with an error. -/
theorem claimC9_wit :
    ∃ e, convert cfgC9w (fun _ _ => "") "DATE" "/inp.tsv" dfC3 = .error e :=
  claimC9_thm cfgC9w (fun _ _ => "") "DATE" "/inp.tsv" dfC3 (Or.inr (by decide))

/-! ## Claim C2 -/

/-- Boolean prefix test on character lists. -/
def charsPrefix : List Char → List Char → Bool
  | [], _ => true
  | _ :: _, [] => false
  | a :: as, b :: bs => a = b && charsPrefix as bs

/-- The claim-side reading of "a `##INFO=<...>` meta-line": the line starts
    with `##INFO=`. -/
def isInfoLine (s : String) : Bool := charsPrefix "##INFO=".data s.data

theorem isInfoLine_fileDate (s : String) : isInfoLine ("##fileDate=" ++ s) = false := by
  unfold isInfoLine
  simp [charsPrefix, String.data_append,
    show "##INFO=".data = ['#', '#', 'I', 'N', 'F', 'O', '='] from rfl,
    show "##fileDate=".data = ['#', '#', 'f', 'i', 'l', 'e', 'D', 'a', 't', 'e', '='] from rfl]

theorem isInfoLine_source (s : String) : isInfoLine ("##source=" ++ s) = false := by
  unfold isInfoLine
  simp [charsPrefix, String.data_append,
    show "##INFO=".data = ['#', '#', 'I', 'N', 'F', 'O', '='] from rfl,
    show "##source=".data = ['#', '#', 's', 'o', 'u', 'r', 'c', 'e', '='] from rfl]

theorem isInfoLine_inputFile (s : String) : isInfoLine ("##InputFile=" ++ s) = false := by
  unfold isInfoLine
  simp [charsPrefix, String.data_append,
    show "##INFO=".data = ['#', '#', 'I', 'N', 'F', 'O', '='] from rfl,
    show "##InputFile=".data
      = ['#', '#', 'I', 'n', 'p', 'u', 't', 'F', 'i', 'l', 'e', '='] from rfl]

theorem isInfoLine_filterLine (v : String) :
    isInfoLine ("##FILTER=<ID=" ++ v ++ ",Description=\".\">") = false := by
  unfold isInfoLine
  simp [charsPrefix, String.data_append,
    show "##INFO=".data = ['#', '#', 'I', 'N', 'F', 'O', '='] from rfl,
    show "##FILTER=<ID=".data
      = ['#', '#', 'F', 'I', 'L', 'T', 'E', 'R', '=', '<', 'I', 'D', '='] from rfl]

theorem isInfoLine_refLine (origin : String) (desc : List (String × String)) (key : String) :
    isInfoLine (describedHeaderLine "REF" origin desc key) = false := by
  unfold describedHeaderLine isInfoLine
  cases List.lookup key desc with
  | some d =>
    simp [charsPrefix, String.data_append,
      show "##INFO=".data = ['#', '#', 'I', 'N', 'F', 'O', '='] from rfl,
      show "##".data = ['#', '#'] from rfl,
      show "REF".data = ['R', 'E', 'F'] from rfl]
  | none =>
    simp [charsPrefix, String.data_append,
      show "##INFO=".data = ['#', '#', 'I', 'N', 'F', 'O', '='] from rfl,
      show "##".data = ['#', '#'] from rfl,
      show "REF".data = ['R', 'E', 'F'] from rfl]

theorem isInfoLine_altLine (origin : String) (desc : List (String × String)) (key : String) :
    isInfoLine (describedHeaderLine "ALT" origin desc key) = false := by
  unfold describedHeaderLine isInfoLine
  cases List.lookup key desc with
  | some d =>
    simp [charsPrefix, String.data_append,
      show "##INFO=".data = ['#', '#', 'I', 'N', 'F', 'O', '='] from rfl,
      show "##".data = ['#', '#'] from rfl,
      show "ALT".data = ['A', 'L', 'T'] from rfl]
  | none =>
    simp [charsPrefix, String.data_append,
      show "##INFO=".data = ['#', '#', 'I', 'N', 'F', 'O', '='] from rfl,
      show "##".data = ['#', '#'] from rfl,
      show "ALT".data = ['A', 'L', 'T'] from rfl]

theorem isInfoLine_formatLine (origin : String) (desc : List (String × String × String))
    (key : String) : isInfoLine (typedHeaderLine "FORMAT" origin desc key) = false := by
  unfold typedHeaderLine isInfoLine
  cases List.lookup key desc with
  | some td =>
    simp [charsPrefix, String.data_append,
      show "##INFO=".data = ['#', '#', 'I', 'N', 'F', 'O', '='] from rfl,
      show "##".data = ['#', '#'] from rfl,
      show "FORMAT".data = ['F', 'O', 'R', 'M', 'A', 'T'] from rfl]
  | none =>
    simp [charsPrefix, String.data_append,
      show "##INFO=".data = ['#', '#', 'I', 'N', 'F', 'O', '='] from rfl,
      show "##".data = ['#', '#'] from rfl,
      show "FORMAT".data = ['F', 'O', 'R', 'M', 'A', 'T'] from rfl]

theorem isInfoLine_infoLine (origin : String) (desc : List (String × String × String))
    (key : String) : isInfoLine (typedHeaderLine "INFO" origin desc key) = true := by
  unfold typedHeaderLine isInfoLine
  cases List.lookup key desc with
  | some td =>
    simp [charsPrefix, String.data_append,
      show "##INFO=".data = ['#', '#', 'I', 'N', 'F', 'O', '='] from rfl,
      show "##".data = ['#', '#'] from rfl,
      show "INFO".data = ['I', 'N', 'F', 'O'] from rfl,
      show "=<ID=".data = ['=', '<', 'I', 'D', '='] from rfl]
  | none =>
    simp [charsPrefix, String.data_append,
      show "##INFO=".data = ['#', '#', 'I', 'N', 'F', 'O', '='] from rfl,
      show "##".data = ['#', '#'] from rfl,
      show "INFO".data = ['I', 'N', 'F', 'O'] from rfl,
      show "=<ID=".data = ['=', '<', 'I', 'D', '='] from rfl]

theorem isInfoLine_titleLine (sl : List String) :
    isInfoLine (joinSep "\t"
      ("#CHROM" :: "POS" :: "ID" :: "REF" :: "ALT" :: "QUAL" :: "FILTER"
        :: "INFO" :: "FORMAT" :: sl)) = false := by
  unfold isInfoLine
  simp [joinSep, charsPrefix, String.data_append,
    show "##INFO=".data = ['#', '#', 'I', 'N', 'F', 'O', '='] from rfl,
    show "#CHROM".data = ['#', 'C', 'H', 'R', 'O', 'M'] from rfl]

/-- Claim C2: the synthesized header contains exactly one `##INFO=<...>`
    meta-line per key of the global INFO key set, in order: a key with a
    Config description entry uses that entry's Type and Description, an
    unknown key still yields a line with `Type=String` and the generic
    imported-from fallback, and `Number=.` always (see `typedHeaderLine`).
    Hypotheses: REF/ALT/FORMAT roles name real columns (otherwise
    `_create_vcf_header` itself raises `KeyError`) and no genome-build
    header line starts with `##INFO=`. -/
theorem claimC2_thm (cfg : Config) (fileDate absInputPath : String)
    (sample_list info_keys : List String) (input : Frame)
    (fcol rcol acol : String)
    (hfil : cfg.filterc = .str fcol)
    (href : cfg.refc = .str rcol) (hrm : rcol ∈ input.cols)
    (halt : cfg.altc = .str acol) (ham : acol ∈ input.cols)
    (hfm : cfg.format ∈ input.cols)
    (hgen : ∀ l ∈ cfg.genomeHeader, isInfoLine l = false) :
    ∃ hdr, create_vcf_header fileDate absInputPath cfg sample_list input info_keys
        = .ok hdr ∧
      hdr.filter isInfoLine
        = info_keys.map (typedHeaderLine "INFO" cfg.origin cfg.descINFO) := by
  have hpre : (["##fileformat=VCFv4.2", "##fileDate=" ++ fileDate,
      "##source=" ++ cfg.origin, "##InputFile=" ++ absInputPath]).filter isInfoLine
        = [] := by
    simp [List.filter_cons, isInfoLine_fileDate, isInfoLine_source, isInfoLine_inputFile,
      show isInfoLine "##fileformat=VCFv4.2" = false from by decide]
  have href' : ((distinctColValues input rcol).map
      (describedHeaderLine "REF" cfg.origin cfg.descREF)).filter isInfoLine = [] := by
    rw [List.filter_eq_nil_iff]
    intro a ha
    rcases List.mem_map.mp ha with ⟨v, _, hve⟩
    rw [← hve, isInfoLine_refLine]
    simp
  have halt' : ((distinctColValues input acol).map
      (describedHeaderLine "ALT" cfg.origin cfg.descALT)).filter isInfoLine = [] := by
    rw [List.filter_eq_nil_iff]
    intro a ha
    rcases List.mem_map.mp ha with ⟨v, _, hve⟩
    rw [← hve, isInfoLine_altLine]
    simp
  have hinfo' : (info_keys.map
      (typedHeaderLine "INFO" cfg.origin cfg.descINFO)).filter isInfoLine
        = info_keys.map (typedHeaderLine "INFO" cfg.origin cfg.descINFO) := by
    rw [List.filter_eq_self]
    intro a ha
    rcases List.mem_map.mp ha with ⟨v, _, hve⟩
    rw [← hve, isInfoLine_infoLine]
  have hfmt' : ∀ subs : List String, (subs.map
      (typedHeaderLine "FORMAT" cfg.origin cfg.descFORMAT)).filter isInfoLine = [] := by
    intro subs
    rw [List.filter_eq_nil_iff]
    intro a ha
    rcases List.mem_map.mp ha with ⟨v, _, hve⟩
    rw [← hve, isInfoLine_formatLine]
    simp
  have hgen' : cfg.genomeHeader.filter isInfoLine = [] := by
    rw [List.filter_eq_nil_iff]
    intro a ha
    rw [hgen a ha]
    simp
  have htit : ([joinSep "\t" (["#CHROM", "POS", "ID", "REF", "ALT", "QUAL", "FILTER",
      "INFO", "FORMAT"] ++ sample_list)]).filter isInfoLine = [] := by
    simp [List.filter_cons, isInfoLine_titleLine]
  by_cases hfc : input.cols.contains fcol
  · have hflt : ((distinctColValues input fcol).map
        (fun fv => "##FILTER=<ID=" ++ fv ++ ",Description=\".\">")).filter isInfoLine
          = [] := by
      rw [List.filter_eq_nil_iff]
      intro a ha
      rcases List.mem_map.mp ha with ⟨v, _, hve⟩
      rw [← hve, isInfoLine_filterLine]
      simp
    refine ⟨["##fileformat=VCFv4.2", "##fileDate=" ++ fileDate, "##source=" ++ cfg.origin,
        "##InputFile=" ++ absInputPath]
        ++ (distinctColValues input fcol).map
            (fun fv => "##FILTER=<ID=" ++ fv ++ ",Description=\".\">")
        ++ (distinctColValues input rcol).map (describedHeaderLine "REF" cfg.origin cfg.descREF)
        ++ (distinctColValues input acol).map (describedHeaderLine "ALT" cfg.origin cfg.descALT)
        ++ info_keys.map (typedHeaderLine "INFO" cfg.origin cfg.descINFO)
        ++ (uniqueKeepFirst ((input.rows.map (fun r => cellD input.cols r cfg.format)).foldr
            (fun cell acc => pySplit ':' cell ++ acc) [])).map
              (typedHeaderLine "FORMAT" cfg.origin cfg.descFORMAT)
        ++ cfg.genomeHeader
        ++ [joinSep "\t" (["#CHROM", "POS", "ID", "REF", "ALT", "QUAL", "FILTER", "INFO", "FORMAT"] ++ sample_list)], ?_, ?_⟩
    · simp only [create_vcf_header, hfil, href, halt, bind, Except.bind, pure, Except.pure]
      rw [if_pos hfc]
      rw [if_neg (by simp [hrm])]
      rw [if_neg (by simp [ham])]
      rw [if_neg (by simp [hfm])]
    · simp only [List.filter_append, hpre, href', halt', hinfo', hfmt', hgen', htit, hflt]
      simp
  · have hflt : (["##FILTER=<ID=PASS,Description=\"Passed filter\">"]).filter isInfoLine
        = [] := by
      simp [List.filter_cons, show
        isInfoLine "##FILTER=<ID=PASS,Description=\"Passed filter\">" = false from by decide]
    refine ⟨["##fileformat=VCFv4.2", "##fileDate=" ++ fileDate, "##source=" ++ cfg.origin,
        "##InputFile=" ++ absInputPath]
        ++ ["##FILTER=<ID=PASS,Description=\"Passed filter\">"]
        ++ (distinctColValues input rcol).map (describedHeaderLine "REF" cfg.origin cfg.descREF)
        ++ (distinctColValues input acol).map (describedHeaderLine "ALT" cfg.origin cfg.descALT)
        ++ info_keys.map (typedHeaderLine "INFO" cfg.origin cfg.descINFO)
        ++ (uniqueKeepFirst ((input.rows.map (fun r => cellD input.cols r cfg.format)).foldr
            (fun cell acc => pySplit ':' cell ++ acc) [])).map
              (typedHeaderLine "FORMAT" cfg.origin cfg.descFORMAT)
        ++ cfg.genomeHeader
        ++ [joinSep "\t" (["#CHROM", "POS", "ID", "REF", "ALT", "QUAL", "FILTER", "INFO", "FORMAT"] ++ sample_list)], ?_, ?_⟩
    · simp only [create_vcf_header, hfil, href, halt, bind, Except.bind, pure, Except.pure]
      rw [if_neg hfc]
      rw [if_neg (by simp [hrm])]
      rw [if_neg (by simp [ham])]
      rw [if_neg (by simp [hfm])]
    · simp only [List.filter_append, hpre, href', halt', hinfo', hfmt', hgen', htit, hflt]
      simp

/-- Witness for C2: a described key (`Gene`) and an undescribed key
    (`Custom`) each yield exactly one INFO meta-line with the claimed
    Type/Description policy. -/
theorem claimC2_wit :
    ∃ hdr, create_vcf_header "DATE" "/inp.tsv" cfgA ["s1"] dfC3 ["Gene", "Custom"]
        = .ok hdr ∧
      hdr.filter isInfoLine =
        ["##INFO=<ID=Gene,Number=.,Type=String,Description=\"Gene name\">",
         "##INFO=<ID=Custom,Number=.,Type=String,Description=\"Imported from AnnotSV\">"] := by
  obtain ⟨hdr, hok, hfl⟩ := claimC2_thm cfgA "DATE" "/inp.tsv" ["s1"] ["Gene", "Custom"]
    dfC3 "" "REF" "ALT" rfl rfl (by decide) rfl (by decide) (by decide) (by decide)
  exact ⟨hdr, hok, by rw [hfl]; decide⟩

/-! ## Claim C5 -/

theorem uniqueKeepFirstAux_mem (n : Nat) (l : List String) (y : String)
    (h : y ∈ uniqueKeepFirstAux n l) : y ∈ l := by
  induction n generalizing l with
  | zero => cases l <;> simp [uniqueKeepFirstAux] at h
  | succ n ih =>
    cases l with
    | nil => simp [uniqueKeepFirstAux] at h
    | cons x xs =>
      simp only [uniqueKeepFirstAux] at h
      rcases List.mem_cons.mp h with h | h
      · rw [h]; exact List.mem_cons_self _ _
      · exact List.mem_cons_of_mem _ (List.mem_of_mem_filter (ih _ h))

theorem uniqueKeepFirst_nodup (l : List String) : (uniqueKeepFirst l).Nodup := by
  suffices h : ∀ (n : Nat) (l : List String), (uniqueKeepFirstAux n l).Nodup from h _ l
  intro n
  induction n with
  | zero => intro l; cases l <;> simp [uniqueKeepFirstAux]
  | succ n ih =>
    intro l
    cases l with
    | nil => simp [uniqueKeepFirstAux]
    | cons x xs =>
      simp only [uniqueKeepFirstAux]
      rw [List.nodup_cons]
      refine ⟨?_, ih _⟩
      intro hx
      have := List.mem_filter.mp (uniqueKeepFirstAux_mem _ _ _ hx)
      simp at this

/-- With no helper-function mappings, the per-group loop of `convert` only
    applies the FILTER="PASS" defaulting. -/
theorem applyHelperLoop_plain (cfg : Config) (hreg : String → List String → String)
    (g : Frame) (s1 s2 s3 s4 s5 s6 s7 : String)
    (h1 : cfg.chrom = .str s1) (h2 : cfg.pos = .str s2) (h3 : cfg.idc = .str s3)
    (h4 : cfg.refc = .str s4) (h5 : cfg.altc = .str s5) (h6 : cfg.qual = .str s6)
    (h7 : cfg.filterc = .str s7)
    (hif : cfg.infoColsSpecs.any ColSpec.isHelperFunc = false) :
    applyHelperLoop cfg hreg g = .ok (if s7 = "" then setCol g "FILTER" "PASS" else g) := by
  by_cases hs7 : s7 = ""
  · rw [if_pos hs7]
    subst hs7
    simp [applyHelperLoop, vcfColumnsItems, mainRoleSpecs, h1, h2, h3, h4, h5, h6, h7,
      hif, List.foldlM, bind, Except.bind, pure, Except.pure]
  · rw [if_neg hs7]
    simp [applyHelperLoop, vcfColumnsItems, mainRoleSpecs, h1, h2, h3, h4, h5, h6, h7,
      hif, hs7, List.foldlM, bind, Except.bind, pure, Except.pure]

/-- Claim C5 (amended): for every variant group exactly one data line is
    written (the emission id list is duplicate-free), consisting of,
    tab-separated: the SEVEN main columns #CHROM, POS, ID, REF, ALT, QUAL,
    FILTER taken from the group's first row (the amendment: the claim says
    nine, but `_get_main_vcf_cols` yields seven columns before the INFO
    field), then the ';'-joined key=value INFO string from the group's
    merged annotations, then either the FORMAT column value plus each
    sample's column value from the first row (FORMAT mapped) or a synthetic
    `GT` field with the configured default genotype (FORMAT unmapped). -/
theorem claimC5_thm (cfg : Config) (hreg : String → List String → String)
    (sampleList mainVcfCols cols : List String) (sortedRows : List (List String))
    (infoDic : List (String × List (String × String))) (vid : String)
    (s1 s2 s3 s4 s5 s6 s7 : String) (r0 : List String)
    (annots : List (String × String))
    (h1 : cfg.chrom = .str s1) (h2 : cfg.pos = .str s2) (h3 : cfg.idc = .str s3)
    (h4 : cfg.refc = .str s4) (h5 : cfg.altc = .str s5) (h6 : cfg.qual = .str s6)
    (h7 : cfg.filterc = .str s7)
    (hif : cfg.infoColsSpecs.any ColSpec.isHelperFunc = false)
    (hmc : mainVcfCols.all (fun c =>
      (if s7 = "" then setCol (Frame.mk cols (sortedRows.filter
          (fun r => cellD cols r cfg.annotsvId = vid))) "FILTER" "PASS"
        else Frame.mk cols (sortedRows.filter
          (fun r => cellD cols r cfg.annotsvId = vid))).cols.contains c))
    (hhead : (if s7 = "" then setCol (Frame.mk cols (sortedRows.filter
          (fun r => cellD cols r cfg.annotsvId = vid))) "FILTER" "PASS"
        else Frame.mk cols (sortedRows.filter
          (fun r => cellD cols r cfg.annotsvId = vid))).rows.head? = some r0)
    (hlk : List.lookup vid infoDic = some annots)
    (hfmt : cfg.format ≠ "" → (cfg.format :: sampleList).all (fun c =>
      (if s7 = "" then setCol (Frame.mk cols (sortedRows.filter
          (fun r => cellD cols r cfg.annotsvId = vid))) "FILTER" "PASS"
        else Frame.mk cols (sortedRows.filter
          (fun r => cellD cols r cfg.annotsvId = vid))).cols.contains c)) :
    (uniqueKeepFirst (sortedRows.map (fun r => cellD cols r cfg.annotsvId))).Nodup ∧
    emitGroupLine cfg hreg sampleList mainVcfCols cols sortedRows infoDic vid
      = .ok (joinSep "\t" (mainVcfCols.map (cellD
          (if s7 = "" then setCol (Frame.mk cols (sortedRows.filter
              (fun r => cellD cols r cfg.annotsvId = vid))) "FILTER" "PASS"
            else Frame.mk cols (sortedRows.filter
              (fun r => cellD cols r cfg.annotsvId = vid))).cols r0))
        ++ "\t" ++ infoStringOf annots ++ "\t"
        ++ (if cfg.format = "" then "GT\t" ++ cfg.defaultGenotype
            else joinSep "\t" ((cfg.format :: sampleList).map (cellD
              (if s7 = "" then setCol (Frame.mk cols (sortedRows.filter
                  (fun r => cellD cols r cfg.annotsvId = vid))) "FILTER" "PASS"
                else Frame.mk cols (sortedRows.filter
                  (fun r => cellD cols r cfg.annotsvId = vid))).cols r0)))) := by
  refine ⟨uniqueKeepFirst_nodup _, ?_⟩
  simp only [emitGroupLine]
  rw [applyHelperLoop_plain cfg hreg _ s1 s2 s3 s4 s5 s6 s7 h1 h2 h3 h4 h5 h6 h7 hif]
  simp only [bind, Except.bind]
  rw [if_neg (not_not_intro hmc)]
  rw [hhead]
  simp only [hlk]
  by_cases hf : cfg.format = ""
  · rw [if_neg (fun hne => hne hf)]
    simp [hf, pure, Except.pure]
  · rw [if_pos hf]
    rw [if_neg (not_not_intro (hfmt hf))]
    simp [pure, Except.pure, hf]

def cfgC5 : Config := { cfgA with format := "", refc := .str "", altc := .str "" }

def dfC5 : Frame := {
  cols := ["AnnotSV_ID", "SV_chrom", "SV_start", "Annotation_mode", "SV_type",
           "Samples_ID", "Gene", "INFO"],
  rows := [["V1", "chr1", "100", "full", "DEL", "s1", "BRCA1", "."]] }

def dicC5 : List (String × List (String × String)) :=
  [("V1", [("AnnotSV_ID", "V1"), ("SV_chrom", "chr1"), ("SV_start", "100"),
    ("Annotation_mode", "full"), ("SV_type", "DEL"), ("Samples_ID", "s1"),
    ("Gene", "BRCA1")])]

def lineC5 : String :=
  "chr1\t100\t.\t.\t.\t.\tPASS\tAnnotSV_ID=V1;SV_chrom=chr1;SV_start=100;Annotation_mode=full;SV_type=DEL;Samples_ID=s1;Gene=BRCA1\tGT\t0/1"

/-- Counterexample to C5 as stated: with FORMAT unmapped, the claimed
    shape — nine main columns, then INFO, then `GT` plus the default
    genotype — implies at least 12 tab-separated fields, but the emitted
    line has exactly 10 (seven main columns before INFO). -/
theorem claimC5_cex :
    (get_main_vcf_cols cfgC5 dfC5).1.length = 7 ∧
    build_info_dic cfgC5 ["s1"] (get_main_vcf_cols cfgC5 dfC5).1
      (get_main_vcf_cols cfgC5 dfC5).2 = Except.ok dicC5 ∧
    emitGroupLine cfgC5 (fun _ _ => "") ["s1"] (get_main_vcf_cols cfgC5 dfC5).1
      (get_main_vcf_cols cfgC5 dfC5).2.cols
      (natsortRows "SV_chrom" (get_main_vcf_cols cfgC5 dfC5).2.cols
        (get_main_vcf_cols cfgC5 dfC5).2.rows)
      dicC5 "V1" = Except.ok lineC5 ∧
    (splitChar '\t' lineC5.data).length = 10 := by decide

def dicC5w : List (String × List (String × String)) :=
  [("V1", [("AnnotSV_ID", "V1"), ("SV_chrom", "chr1"), ("SV_start", "100"),
    ("Annotation_mode", "full"), ("SV_type", "DEL"), ("Gene", "BRCA1"),
    ("FORMAT", "GT"), ("Samples_ID", "s1"), ("s1", "0/1")])]

def lineC5w : String :=
  "chr1\t100\t.\tA\t<DEL>\t.\tPASS\tAnnotSV_ID=V1;SV_chrom=chr1;SV_start=100;Annotation_mode=full;SV_type=DEL;Gene=BRCA1;FORMAT=GT;Samples_ID=s1;s1=0/1\tGT\t0/1"

/-- Witness for the amended C5 at a concrete FORMAT-mapped group: seven
    main columns (FILTER defaulted to PASS), the INFO string, the FORMAT
    value and the sample value, all from the group's first row. -/
theorem claimC5_wit :
    emitGroupLine cfgA (fun _ _ => "") ["s1"] (get_main_vcf_cols cfgA dfC3).1
      (get_main_vcf_cols cfgA dfC3).2.cols
      (natsortRows "SV_chrom" (get_main_vcf_cols cfgA dfC3).2.cols
        (get_main_vcf_cols cfgA dfC3).2.rows)
      dicC5w "V1" = Except.ok lineC5w := by
  have h := (claimC5_thm cfgA (fun _ _ => "") ["s1"] (get_main_vcf_cols cfgA dfC3).1
    (get_main_vcf_cols cfgA dfC3).2.cols
    (natsortRows "SV_chrom" (get_main_vcf_cols cfgA dfC3).2.cols
      (get_main_vcf_cols cfgA dfC3).2.rows)
    dicC5w "V1" "SV_chrom" "SV_start" "" "REF" "ALT" "" ""
    ["V1", "chr1", "100", "A", "<DEL>", "full", "DEL", "BRCA1", "GT", "s1", "0/1",
     "dcn", ".", ".", "PASS"]
    [("AnnotSV_ID", "V1"), ("SV_chrom", "chr1"), ("SV_start", "100"),
     ("Annotation_mode", "full"), ("SV_type", "DEL"), ("Gene", "BRCA1"),
     ("FORMAT", "GT"), ("Samples_ID", "s1"), ("s1", "0/1")]
    rfl rfl rfl rfl rfl rfl rfl (by decide) (by decide) (by decide) (by decide)
    (fun _ => by decide)).2
  rw [h]
  decide

/-! ## Claim C4 -/

theorem listNatLt_trans : ∀ a b c : List Nat,
    listNatLt a b = true → listNatLt b c = true → listNatLt a c = true := by
  intro a
  induction a with
  | nil =>
    intro b c hab hbc
    cases b with
    | nil => cases hab
    | cons y ys =>
      cases c with
      | nil => cases hbc
      | cons z zs => rfl
  | cons x xs ih =>
    intro b c hab hbc
    cases b with
    | nil => cases hab
    | cons y ys =>
      cases c with
      | nil => cases hbc
      | cons z zs =>
        simp only [listNatLt] at hab hbc ⊢
        split_ifs at hab hbc ⊢ <;>
          first
          | rfl
          | omega
          | cases hab
          | cases hbc
          | exact ih ys zs hab hbc

theorem listNatLt_asymm : ∀ a b : List Nat,
    listNatLt a b = true → listNatLt b a = false := by
  intro a
  induction a with
  | nil =>
    intro b hab
    cases b with
    | nil => cases hab
    | cons y ys => rfl
  | cons x xs ih =>
    intro b hab
    cases b with
    | nil => cases hab
    | cons y ys =>
      simp only [listNatLt] at hab ⊢
      split_ifs at hab ⊢ <;>
        first
        | rfl
        | omega
        | cases hab
        | exact ih ys hab

theorem mem_insertStable (lt : α → α → Bool) (x w : α) (l : List α) :
    w ∈ insertStable lt x l ↔ w = x ∨ w ∈ l := by
  induction l with
  | nil => simp [insertStable]
  | cons y ys ih =>
    simp only [insertStable]
    by_cases hxy : lt x y = true
    · rw [if_pos hxy]
      simp
    · rw [if_neg hxy]
      simp only [List.mem_cons, ih]
      tauto

theorem pairwise_insertStable (lt : α → α → Bool)
    (htrans : ∀ a b c, lt a b = true → lt b c = true → lt a c = true)
    (hasym : ∀ a b, lt a b = true → lt b a = false)
    (x : α) (l : List α) (hl : l.Pairwise (fun u v => lt v u = false)) :
    (insertStable lt x l).Pairwise (fun u v => lt v u = false) := by
  induction l with
  | nil => simp [insertStable]
  | cons y ys ih =>
    rcases List.pairwise_cons.mp hl with ⟨hy, hys⟩
    simp only [insertStable]
    by_cases hxy : lt x y = true
    · rw [if_pos hxy]
      refine List.pairwise_cons.mpr ⟨?_, hl⟩
      intro w hw
      rcases List.mem_cons.mp hw with hw | hw
      · rw [hw]; exact hasym x y hxy
      · cases hwx : lt w x with
        | false => rfl
        | true =>
          have := htrans w x y hwx hxy
          rw [hy w hw] at this
          cases this
    · rw [if_neg hxy]
      refine List.pairwise_cons.mpr ⟨?_, ih hys⟩
      intro w hw
      rcases (mem_insertStable lt x w ys).mp hw with hw | hw
      · rw [hw]
        exact Bool.eq_false_iff.mpr hxy
      · exact hy w hw

theorem mem_stableSortBy (lt : α → α → Bool) (l : List α) (w : α) :
    w ∈ stableSortBy lt l ↔ w ∈ l := by
  have hgen : ∀ (l acc : List α),
      (w ∈ l.foldl (fun acc x => insertStable lt x acc) acc ↔ w ∈ acc ∨ w ∈ l) := by
    intro l
    induction l with
    | nil => intro acc; simp
    | cons x xs ih =>
      intro acc
      rw [List.foldl_cons, ih, mem_insertStable]
      simp only [List.mem_cons]
      tauto
  have := hgen l []
  simp only [stableSortBy, this, List.not_mem_nil, false_or]

theorem pairwise_stableSortBy (lt : α → α → Bool)
    (htrans : ∀ a b c, lt a b = true → lt b c = true → lt a c = true)
    (hasym : ∀ a b, lt a b = true → lt b a = false) (l : List α) :
    (stableSortBy lt l).Pairwise (fun u v => lt v u = false) := by
  have hgen : ∀ (l acc : List α), acc.Pairwise (fun u v => lt v u = false) →
      (l.foldl (fun acc x => insertStable lt x acc) acc).Pairwise
        (fun u v => lt v u = false) := by
    intro l
    induction l with
    | nil => intro acc h; exact h
    | cons x xs ih =>
      intro acc h
      rw [List.foldl_cons]
      exact ih _ (pairwise_insertStable lt htrans hasym x acc h)
  exact hgen l [] List.Pairwise.nil

theorem ukf_findIdx_lt (a b : String) (hne : a ≠ b) : ∀ (n : Nat) (l : List String),
    l.length ≤ n →
    l.Pairwise (fun x y => ¬(x = b ∧ y = a)) →
    a ∈ l → b ∈ l →
    (uniqueKeepFirstAux n l).findIdx (fun x => x = a)
      < (uniqueKeepFirstAux n l).findIdx (fun x => x = b) := by
  intro n
  induction n with
  | zero =>
    intro l hlen hpw ha hb
    cases l with
    | nil => cases ha
    | cons x xs => simp at hlen
  | succ n ih =>
    intro l hlen hpw ha hb
    cases l with
    | nil => cases ha
    | cons x xs =>
      simp only [uniqueKeepFirstAux]
      by_cases hxa : x = a
      · have hxb : ¬ x = b := fun h => hne (hxa ▸ h ▸ rfl)
        simp only [List.findIdx_cons, hxa, hxb]
        simp [hne]
      · by_cases hxb : x = b
        · exfalso
          rcases List.pairwise_cons.mp hpw with ⟨hy, _⟩
          have haxs : a ∈ xs := by
            rcases List.mem_cons.mp ha with h | h
            · exact absurd h (fun he => hxa he.symm)
            · exact h
          exact hy a haxs ⟨hxb, rfl⟩
        · have haxs : a ∈ xs := by
            rcases List.mem_cons.mp ha with h | h
            · exact absurd h (fun he => hxa he.symm)
            · exact h
          have hbxs : b ∈ xs := by
            rcases List.mem_cons.mp hb with h | h
            · exact absurd h (fun he => hxb he.symm)
            · exact h
          have hrec := ih (xs.filter (fun y => y ≠ x))
            (Nat.le_trans (List.length_filter_le _ _) (Nat.le_of_succ_le_succ hlen))
            (List.Pairwise.sublist (List.filter_sublist _)
              (List.pairwise_cons.mp hpw).2)
            (List.mem_filter.mpr ⟨haxs, by simp; exact fun he => hxa he.symm⟩)
            (List.mem_filter.mpr ⟨hbxs, by simp; exact fun he => hxb he.symm⟩)
          simp only [List.findIdx_cons]
          rw [show (decide (x = a)) = false by simp [hxa]]
          rw [show (decide (x = b)) = false by simp [hxb]]
          simp only [cond_false]
          omega

/-- Claim C4: variant groups are emitted in chromosome-aware natural order
    of the chromosome token.  For any two groups whose rows sit on `chr2`
    and `chr10` respectively (both present in the table), the `chr2` group's
    position in the emission id list — and hence its data line, since
    `convert` writes one line per id in this order — strictly precedes the
    `chr10` group's, even though plain lexicographic order would put `chr10`
    first. -/
theorem claimC4_thm (chromCol idCol : String) (cols : List String)
    (rows : List (List String)) (gidA gidB : String)
    (hA : ∀ r ∈ rows, cellD cols r idCol = gidA → cellD cols r chromCol = "chr2")
    (hB : ∀ r ∈ rows, cellD cols r idCol = gidB → cellD cols r chromCol = "chr10")
    (hExA : ∃ r ∈ rows, cellD cols r idCol = gidA)
    (hExB : ∃ r ∈ rows, cellD cols r idCol = gidB)
    (hne : gidA ≠ gidB) :
    (emissionIds chromCol idCol cols rows).findIdx (fun x => x = gidA)
      < (emissionIds chromCol idCol cols rows).findIdx (fun x => x = gidB) := by
  have htrans : ∀ a b c : List String,
      (natLt (cellD cols a chromCol) (cellD cols b chromCol)) = true →
      (natLt (cellD cols b chromCol) (cellD cols c chromCol)) = true →
      (natLt (cellD cols a chromCol) (cellD cols c chromCol)) = true :=
    fun a b c hab hbc => listNatLt_trans _ _ _ hab hbc
  have hasym : ∀ a b : List String,
      (natLt (cellD cols a chromCol) (cellD cols b chromCol)) = true →
      (natLt (cellD cols b chromCol) (cellD cols a chromCol)) = false :=
    fun a b hab => listNatLt_asymm _ _ hab
  have hsorted := pairwise_stableSortBy
    (fun r s : List String => natLt (cellD cols r chromCol) (cellD cols s chromCol))
    htrans hasym rows
  have hpw : ((stableSortBy
      (fun r s : List String => natLt (cellD cols r chromCol) (cellD cols s chromCol))
      rows).map (fun r => cellD cols r idCol)).Pairwise
        (fun x y => ¬(x = gidB ∧ y = gidA)) := by
    rw [List.pairwise_map]
    refine (List.Pairwise.and_mem.mp hsorted).imp ?_
    intro u v huv hc
    rcases huv with ⟨hu, hv, hlt⟩
    rcases hc with ⟨hub, hva⟩
    have hcu : cellD cols u chromCol = "chr10" :=
      hB u ((mem_stableSortBy _ rows u).mp hu) hub
    have hcv : cellD cols v chromCol = "chr2" :=
      hA v ((mem_stableSortBy _ rows v).mp hv) hva
    rw [hcv, hcu] at hlt
    exact absurd hlt (by decide)
  have hmA : gidA ∈ (stableSortBy
      (fun r s : List String => natLt (cellD cols r chromCol) (cellD cols s chromCol))
      rows).map (fun r => cellD cols r idCol) := by
    rcases hExA with ⟨r, hr, hid⟩
    exact List.mem_map.mpr ⟨r, (mem_stableSortBy _ rows r).mpr hr, hid⟩
  have hmB : gidB ∈ (stableSortBy
      (fun r s : List String => natLt (cellD cols r chromCol) (cellD cols s chromCol))
      rows).map (fun r => cellD cols r idCol) := by
    rcases hExB with ⟨r, hr, hid⟩
    exact List.mem_map.mpr ⟨r, (mem_stableSortBy _ rows r).mpr hr, hid⟩
  exact ukf_findIdx_lt gidA gidB hne _ _ (Nat.le_refl _) hpw hmA hmB

def dfC4w : Frame := {
  cols := ["AnnotSV_ID", "SV_chrom", "SV_start", "Annotation_mode", "SV_type", "INFO"],
  rows := [["VB", "chr10", "7", "full", "DEL", "."], ["VA", "chr2", "5", "full", "DUP", "."]] }

/-- Witness for C4: a table listing the `chr10` group before the `chr2`
    group still emits the `chr2` group first. -/
theorem claimC4_wit :
    (emissionIds "SV_chrom" "AnnotSV_ID" dfC4w.cols dfC4w.rows).findIdx
        (fun x => x = "VA")
      < (emissionIds "SV_chrom" "AnnotSV_ID" dfC4w.cols dfC4w.rows).findIdx
        (fun x => x = "VB") :=
  claimC4_thm "SV_chrom" "AnnotSV_ID" dfC4w.cols dfC4w.rows "VA" "VB"
    (by decide) (by decide) (by decide) (by decide) (by decide)
